import Mathlib

/-!
# ESP32 hydroponics controller: shallow embedding and verified properties

The C++ sources are embedded as pure Lean functions on explicit state.

* Machine integers are natural numbers reduced modulo the width of the C++
  type: `uint8_t` values modulo `2 ^ 8`, `unsigned long` (32 bit on the
  ESP32) modulo `2 ^ 32`.
* Every value the firmware reads from the platform (`digitalRead`,
  `millis`, `WiFi.status`, the result of `WiFi.disconnect`) is an explicit
  argument of the function that reads it, in the order of the reads.
* Every effect on the platform that a property speaks about is recorded in
  the state: the calls made on the shift register pins, the PWM duties, the
  number of association requests.
* `DebugLogger` calls only print and are left out.
-/

namespace Hydroponics

/-! ## Platform: pin output -/

/-- Logic level `HIGH` of the Arduino core. -/
abbrev HIGH : Bool := true

/-- Logic level `LOW` of the Arduino core. -/
abbrev LOW : Bool := false

/-- One level driven on one output pin. -/
structure PinWrite where
  pin : Nat
  level : Bool
deriving DecidableEq, Repr

/-- A call made by the firmware on the pin interface of the platform. -/
inductive PinCall where
  | digitalWrite (pin : Nat) (level : Bool)
  | shiftOut (dataPin clockPin : Nat) (msbFirst : Bool) (val : Nat)
deriving DecidableEq, Repr

/-- Modelled from the spec: the platform routine `shiftOut` is not part of
the repository sources. It shifts 8 bits of `val`, most significant first
when `msbFirst` is set, presenting each bit on the data pin and pulsing the
clock pin high and low once per bit. -/
def shiftOutSignals (dataPin clockPin : Nat) (msbFirst : Bool) (val : Nat) :
    List PinWrite :=
  (List.range 8).flatMap fun i =>
    let bit := if msbFirst then ((val >>> (7 - i)) &&& 1 != 0) else ((val >>> i) &&& 1 != 0)
    [⟨dataPin, bit⟩, ⟨clockPin, HIGH⟩, ⟨clockPin, LOW⟩]

/-- The levels a platform call drives, in order. -/
def PinCall.signals : PinCall → List PinWrite
  | .digitalWrite pin level => [⟨pin, level⟩]
  | .shiftOut d c m v => shiftOutSignals d c m v

/-! ## ShiftRegister.cpp -/

/-- The `ShiftRegister` object: its three control pins, the in-memory byte
`registers`, and the record `calls` of everything it did on its pins. -/
structure ShiftRegister where
  dataPin : Nat
  clockPin : Nat
  latchPin : Nat
  registers : Nat
  calls : List PinCall
deriving DecidableEq, Repr

/-- Constructor `ShiftRegister::ShiftRegister`: `registers(0)`. -/
def ShiftRegister.new (dataPin clockPin latchPin : Nat) : ShiftRegister :=
  { dataPin := dataPin, clockPin := clockPin, latchPin := latchPin,
    registers := 0, calls := [] }

/-- Method `ShiftRegister::setPinState`: `registers |= (1 << pin)` or
`registers &= ~(1 << pin)`. The shift and the complement are computed on
32-bit `int` and the result is stored in a `uint8_t`. For `pin` of 32 or more
the C++ shift is undefined; the embedding keeps the low 32 bits of it. -/
def ShiftRegister.setPinState (sr : ShiftRegister) (pin : Nat) (state : Bool) :
    ShiftRegister :=
  if state then
    { sr with registers := (sr.registers ||| ((1 <<< pin) % 2 ^ 32)) % 256 }
  else
    { sr with registers := (sr.registers &&& (2 ^ 32 - 1 - (1 <<< pin) % 2 ^ 32)) % 256 }

/-- Method `ShiftRegister::write`: latch low, `shiftOut(..., MSBFIRST, registers)`,
latch high. -/
def ShiftRegister.write (sr : ShiftRegister) : ShiftRegister :=
  { sr with calls := sr.calls ++
      [PinCall.digitalWrite sr.latchPin LOW,
       PinCall.shiftOut sr.dataPin sr.clockPin true sr.registers,
       PinCall.digitalWrite sr.latchPin HIGH] }

/-- Method `ShiftRegister::getPinState`: `(registers >> pin) & 1`. -/
def ShiftRegister.getPinState (sr : ShiftRegister) (pin : Nat) : Bool :=
  (sr.registers >>> pin) &&& 1 != 0

/-! ## DiodeTypes.hpp -/

/-- The enumeration `DiodeType`. -/
inductive DiodeType where
  | Power | WiFi | Pump | Vegetable | Flower
deriving DecidableEq, Repr

/-! ## Platform: PWM -/

/-- Duty of the three PWM channels used by the strip. -/
structure Ledc where
  duty0 : Nat
  duty1 : Nat
  duty2 : Nat
deriving DecidableEq, Repr

/-- Platform call `ledcWrite(channel, duty)` on the three channels in use. -/
def Ledc.ledcWrite (p : Ledc) (channel duty : Nat) : Ledc :=
  match channel with
  | 0 => { p with duty0 := duty }
  | 1 => { p with duty1 := duty }
  | 2 => { p with duty2 := duty }
  | _ => p

/-! ## LEDController.cpp -/

/-- The `LEDController` object. `shiftRegister` is the object the pointer
member refers to, `ledc` the PWM channels it drives, and `lastBlinkTime`,
`blinkState`, `blinkCounter` the function-static variables of
`blinkWiFiLedDiode`. -/
structure LEDController where
  shiftRegister : ShiftRegister
  ledc : Ledc
  powerLedDiodePin : Nat
  wifiLedDiodePin : Nat
  pumpLedDiodePin : Nat
  vegetableLedDiodePin : Nat
  flowerLedDiodePin : Nat
  ledBlinkState : Bool
  lastBlinkMillis : Nat
  wifiBlinkCounter : Int
  blinkInterval : Nat
  lastBlinkTime : Nat
  blinkState : Bool
  blinkCounter : Int
deriving DecidableEq, Repr

/-- Method `LEDController::getLedDiodePin` on the five enumerators. -/
def LEDController.getLedDiodePin (lc : LEDController) : DiodeType → Nat
  | .Power => lc.powerLedDiodePin
  | .WiFi => lc.wifiLedDiodePin
  | .Pump => lc.pumpLedDiodePin
  | .Vegetable => lc.vegetableLedDiodePin
  | .Flower => lc.flowerLedDiodePin

/-- Method `LEDController::setLedDiodeState`: `setPinState` on the mapped pin, then
`write`. -/
def LEDController.setLedDiodeState (lc : LEDController) (ledDiode : DiodeType)
    (ledDiodeState : Bool) : LEDController :=
  let pin := lc.getLedDiodePin ledDiode
  { lc with shiftRegister := (lc.shiftRegister.setPinState pin ledDiodeState).write }

/-- Method `LEDController::tuneMultipleLedAttributes`: the variadic argument pack
is the list of its (diode, state) pairs; each pair is applied with
`setLedDiodeState`, first pair first. -/
def LEDController.tuneMultipleLedAttributes (lc : LEDController) :
    List (DiodeType × Bool) → LEDController
  | [] => lc
  | (ledDiode, ledDiodeState) :: rest =>
      (lc.setLedDiodeState ledDiode ledDiodeState).tuneMultipleLedAttributes rest

/-- Method `LEDController::toggleLedDiodeState`. -/
def LEDController.toggleLedDiodeState (lc : LEDController) (ledDiode : DiodeType) :
    LEDController :=
  let pin := lc.getLedDiodePin ledDiode
  let currentLedDiodeState := lc.shiftRegister.getPinState pin
  { lc with shiftRegister := (lc.shiftRegister.setPinState pin (!currentLedDiodeState)).write }

/-- Method `LEDController::setLedStripMode` on a `uint8_t` mode: a switch with the
cases 0, 1 and 2 and no default. -/
def LEDController.setLedStripMode (lc : LEDController) (ledStripMode : Nat) :
    LEDController :=
  match ledStripMode % 256 with
  | 0 => { lc with ledc := ((lc.ledc.ledcWrite 0 255).ledcWrite 1 0).ledcWrite 2 0 }
  | 1 => { lc with ledc := ((lc.ledc.ledcWrite 0 0).ledcWrite 1 255).ledcWrite 2 0 }
  | 2 => { lc with ledc := ((lc.ledc.ledcWrite 0 0).ledcWrite 1 0).ledcWrite 2 0 }
  | _ => lc

/-- Subtraction of two `unsigned long` values (32 bit, wrapping). -/
def subU32 (a b : Nat) : Nat :=
  (a % 2 ^ 32 + 2 ^ 32 - b % 2 ^ 32) % 2 ^ 32

/-- Method `LEDController::blinkWiFiLedDiode(count)`; `t1` and `t2` are the values
of its two `millis()` reads. -/
def LEDController.blinkWiFiLedDiode (lc : LEDController) (count : Int) (t1 t2 : Nat) :
    LEDController :=
  if subU32 t1 lc.lastBlinkTime ≥ lc.blinkInterval then
    let blinkState := !lc.blinkState
    let sr := (lc.shiftRegister.setPinState lc.wifiLedDiodePin blinkState).write
    let blinkCounter :=
      if blinkState then
        (if lc.blinkCounter + 1 ≥ count * 2 then 0 else lc.blinkCounter + 1)
      else lc.blinkCounter
    { lc with blinkState := blinkState, shiftRegister := sr,
              lastBlinkTime := t2 % 2 ^ 32, blinkCounter := blinkCounter }
  else lc

/-- Method `LEDController::updateWiFiLedDiodeStatus`; `t1` and `t2` are the
`millis()` reads of the blink it may call (with the default `count = 1`). -/
def LEDController.updateWiFiLedDiodeStatus (lc : LEDController) (isConnected : Bool)
    (t1 t2 : Nat) : LEDController :=
  if isConnected then
    { lc with
        shiftRegister := (lc.shiftRegister.setPinState lc.wifiLedDiodePin HIGH).write,
        ledBlinkState := false, wifiBlinkCounter := 0 }
  else if lc.wifiBlinkCounter < 3 then
    let lc1 := lc.blinkWiFiLedDiode 1 t1 t2
    { lc1 with wifiBlinkCounter := lc1.wifiBlinkCounter + 1 }
  else
    { lc with
        shiftRegister := (lc.shiftRegister.setPinState lc.wifiLedDiodePin LOW).write,
        ledBlinkState := false }

/-- Constructor `LEDController::LEDController`. The member initialiser list
gives `blinkInterval(200)`, which takes precedence over the default member
initialiser in the header. `ledc` is the state of the PWM channels after
`ledcSetup` and `ledcAttachPin`. -/
def LEDController.new (shiftRegister : ShiftRegister) (ledc : Ledc)
    (powerLedDiodePin wifiLedDiodePin pumpLedDiodePin vegetableLedDiodePin
      flowerLedDiodePin : Nat) : LEDController :=
  { shiftRegister := shiftRegister, ledc := ledc,
    powerLedDiodePin := powerLedDiodePin % 256,
    wifiLedDiodePin := wifiLedDiodePin % 256,
    pumpLedDiodePin := pumpLedDiodePin % 256,
    vegetableLedDiodePin := vegetableLedDiodePin % 256,
    flowerLedDiodePin := flowerLedDiodePin % 256,
    ledBlinkState := false, lastBlinkMillis := 0, wifiBlinkCounter := 0,
    blinkInterval := 200, lastBlinkTime := 0, blinkState := false, blinkCounter := 0 }

/-! ## AppState.cpp -/

/-- The `AppState` record. -/
structure AppState where
  powerOn : Bool
  wifiLedDiodeState : Bool
  pumpLedDiodeState : Bool
  vegetableLedDiodeState : Bool
  flowerLedDiodeState : Bool
  ledStripState : Bool
  motorPumpState : Bool
deriving DecidableEq, Repr

/-- Constructor `AppState::AppState`: every member `false`. -/
def AppState.new : AppState :=
  { powerOn := false, wifiLedDiodeState := false, pumpLedDiodeState := false,
    vegetableLedDiodeState := false, flowerLedDiodeState := false,
    ledStripState := false, motorPumpState := false }

def AppState.setPowerState (a : AppState) (state : Bool) : AppState :=
  { a with powerOn := state }

def AppState.isPowerOn (a : AppState) : Bool := a.powerOn

def AppState.setWiFiLedDiodeState (a : AppState) (state : Bool) : AppState :=
  { a with wifiLedDiodeState := state }

def AppState.isWiFiLedDiodeOn (a : AppState) : Bool := a.wifiLedDiodeState

def AppState.setPumpLedDiodeState (a : AppState) (state : Bool) : AppState :=
  { a with pumpLedDiodeState := state }

def AppState.isPumpLedDiodeOn (a : AppState) : Bool := a.pumpLedDiodeState

def AppState.setVegetableLedDiodeState (a : AppState) (state : Bool) : AppState :=
  { a with vegetableLedDiodeState := state }

def AppState.isVegetableLedDiodeOn (a : AppState) : Bool := a.vegetableLedDiodeState

def AppState.setFlowerLedDiodeState (a : AppState) (state : Bool) : AppState :=
  { a with flowerLedDiodeState := state }

def AppState.isFlowerLedDiodeOn (a : AppState) : Bool := a.flowerLedDiodeState

/-- Method `AppState::setLedDiodeState`. -/
def AppState.setLedDiodeState (a : AppState) (ledDiode : DiodeType) (state : Bool) :
    AppState :=
  match ledDiode with
  | .Power => { a with powerOn := state }
  | .WiFi => { a with wifiLedDiodeState := state }
  | .Pump => { a with pumpLedDiodeState := state }
  | .Vegetable => { a with vegetableLedDiodeState := state }
  | .Flower => { a with flowerLedDiodeState := state }

/-- Method `AppState::getStateForLedDiode`. -/
def AppState.getStateForLedDiode (a : AppState) : DiodeType → Bool
  | .Power => a.powerOn
  | .WiFi => a.wifiLedDiodeState
  | .Pump => a.pumpLedDiodeState
  | .Vegetable => a.vegetableLedDiodeState
  | .Flower => a.flowerLedDiodeState

def AppState.setLedStripState (a : AppState) (state : Bool) : AppState :=
  { a with ledStripState := state }

def AppState.isLedStripOn (a : AppState) : Bool := a.ledStripState

def AppState.setMotorPumpState (a : AppState) (state : Bool) : AppState :=
  { a with motorPumpState := state }

def AppState.getMotorPumpState (a : AppState) : Bool := a.motorPumpState

/-! ## ButtonManager.cpp -/

/-- The `ButtonManager` object; `debounceDelay` is the class constant. -/
structure ButtonManager where
  pin : Nat
  lastButtonState : Bool
  lastDebounceTime : Nat
deriving DecidableEq, Repr

/-- Class constant `ButtonManager::debounceDelay`. -/
def ButtonManager.debounceDelay : Nat := 80

/-- Constructor `ButtonManager::ButtonManager`: `lastButtonState(HIGH)`,
`lastDebounceTime(0)`. -/
def ButtonManager.new (pin : Nat) : ButtonManager :=
  { pin := pin % 256, lastButtonState := HIGH, lastDebounceTime := 0 }

/-- Method `ButtonManager::isClicked`; `currentState` is the value of its
`digitalRead`. Returns the result and the object afterwards. -/
def ButtonManager.isClicked (b : ButtonManager) (currentState : Bool) :
    Bool × ButtonManager :=
  let clicked := (currentState == LOW && b.lastButtonState == HIGH)
  (clicked, { b with lastButtonState := currentState })

/-- Method `ButtonManager::update`; `currentState` is the value of its
`digitalRead`, `t1` the `millis()` read of the first `if` body and `t2` the
`millis()` read of the second condition. -/
def ButtonManager.update (b : ButtonManager) (currentState : Bool) (t1 t2 : Nat) :
    ButtonManager :=
  let b1 :=
    if currentState != b.lastButtonState then { b with lastDebounceTime := t1 % 2 ^ 32 }
    else b
  if subU32 t2 b1.lastDebounceTime > ButtonManager.debounceDelay then
    { b1 with lastButtonState := currentState }
  else b1

/-- A run of `update` calls; each element is the raw level and the two
`millis()` reads of one call. -/
def ButtonManager.updateRun (b : ButtonManager) : List (Bool × Nat × Nat) → ButtonManager
  | [] => b
  | (c, t1, t2) :: rest => (b.update c t1 t2).updateRun rest

/-! ## WiFiManager.cpp -/

/-- Link status values of the platform (`wl_status_t`). -/
inductive WlStatus where
  | WL_NO_SHIELD | WL_IDLE_STATUS | WL_NO_SSID_AVAIL | WL_SCAN_COMPLETED
  | WL_CONNECTED | WL_CONNECT_FAILED | WL_CONNECTION_LOST | WL_DISCONNECTED
deriving DecidableEq, Repr

/-- The `WiFiManager` object with its two static flags. `beginCalls`,
`disconnectCalls`, `modeOffCalls` count the calls of `WiFi.begin`,
`WiFi.disconnect` and `WiFi.mode(WIFI_OFF)` made so far, `delayed` adds up
the blocking `delay` calls. -/
structure WiFiManager where
  connecting : Bool
  connected : Bool
  startTime : Nat
  lastAttemptTime : Nat
  attemptInterval : Nat
  beginCalls : Nat
  disconnectCalls : Nat
  modeOffCalls : Nat
  delayed : Nat
deriving DecidableEq, Repr

/-- Constructor `WiFiManager::WiFiManager` and the static member
initialisation. -/
def WiFiManager.new : WiFiManager :=
  { connecting := false, connected := false, startTime := 0, lastAttemptTime := 0,
    attemptInterval := 5000, beginCalls := 0, disconnectCalls := 0, modeOffCalls := 0,
    delayed := 0 }

/-- Method `WiFiManager::isConnecting`. -/
def WiFiManager.isConnecting (w : WiFiManager) : Bool := w.connecting

/-- Method `WiFiManager::isConnected`; `status` is the value of its
`WiFi.status()` read. It stores the result in `connected`. -/
def WiFiManager.isConnected (w : WiFiManager) (status : WlStatus) : Bool × WiFiManager :=
  let c := (status == WlStatus.WL_CONNECTED)
  (c, { w with connected := c })

/-- Method `WiFiManager::connect`; `status` is the `WiFi.status()` read of
its `isConnected()` call and `now` its `millis()` read. -/
def WiFiManager.connect (w : WiFiManager) (status : WlStatus) (now : Nat) : WiFiManager :=
  let (c, w1) := w.isConnected status
  if !c && !w1.isConnecting then
    { w1 with beginCalls := w1.beginCalls + 1, connecting := true, startTime := now % 2 ^ 32 }
  else w1

/-- Method `WiFiManager::handleConnectionResult`. `currentTime` is its
`millis()` read, `status` the `WiFi.status()` read of the branch conditions,
`connectStatus` and `connectNow` the reads of the `connect()` call it may
make, and `tailStatus` the `WiFi.status()` read of the final `if`. -/
def WiFiManager.handleConnectionResult (w : WiFiManager) (currentTime : Nat)
    (status connectStatus : WlStatus) (connectNow : Nat) (tailStatus : WlStatus) :
    WiFiManager :=
  let w1 :=
    if w.connecting then
      if status == WlStatus.WL_CONNECTED then
        let w2 := if !w.connected then { w with connected := true } else w
        { w2 with connecting := false }
      else if decide (subU32 currentTime w.lastAttemptTime > w.attemptInterval)
          && !w.connecting then
        { w.connect connectStatus connectNow with lastAttemptTime := currentTime % 2 ^ 32 }
      else w
    else if !w.connecting && w.connected && status != WlStatus.WL_CONNECTED then
      { w.connect connectStatus connectNow with lastAttemptTime := currentTime % 2 ^ 32 }
    else if !w.connecting && !w.connected then
      { w.connect connectStatus connectNow with lastAttemptTime := currentTime % 2 ^ 32 }
    else w
  if tailStatus != WlStatus.WL_CONNECTED then { w1 with delayed := w1.delayed + 250 }
  else w1

/-- The polling loop of `WiFiManager::disconnect`,
`while (WiFi.status() != WL_DISCONNECTED && (millis() - startMillis <= 5000)) {}`.
Each element of the list is the pair of reads of one evaluation of the loop
condition. The result is `true` when the loop is left within these
evaluations. -/
def WiFiManager.pollLoopExits (startMillis : Nat) : List (WlStatus × Nat) → Bool
  | [] => false
  | (status, now) :: rest =>
      if status != WlStatus.WL_DISCONNECTED && decide (subU32 now startMillis ≤ 5000) then
        WiFiManager.pollLoopExits startMillis rest
      else true

/-- Method `WiFiManager::disconnect`. `accepted` is the result of
`WiFi.disconnect()`, `startMillis` the `millis()` read before the loop and
`polls` the reads of the loop condition. The result is `none` when the loop
is not left within `polls`. -/
def WiFiManager.disconnect (w : WiFiManager) (accepted : Bool) (startMillis : Nat)
    (polls : List (WlStatus × Nat)) : Option WiFiManager :=
  let w1 := { w with disconnectCalls := w.disconnectCalls + 1 }
  if accepted then
    if WiFiManager.pollLoopExits startMillis polls then
      some { w1 with modeOffCalls := w1.modeOffCalls + 1, connected := false,
                     connecting := false }
    else none
  else some w1

/-! ## main.cpp -/

/-- Modelled from the spec: the constant `STRIP_OFF` of `Config.hpp`, a file
that is not part of the sources at hand. The strip mode "off" is mode 2, as
the documentation of `handleMultipleLedInteractions` also says. -/
def STRIP_OFF : Nat := 2

/-- The array `allButtons`, indexed by the enumeration `Button`. -/
structure Buttons where
  Power : ButtonManager
  Pump : ButtonManager
  Vegetable : ButtonManager
  Flower : ButtonManager
deriving DecidableEq, Repr

/-- The global objects of `main.cpp`. The shift register is the one inside
`ledController`. -/
structure System where
  appState : AppState
  wifiManager : WiFiManager
  allButtons : Buttons
  ledController : LEDController
deriving DecidableEq, Repr

/-- The pin constants of `Config.hpp`, which is not part of the sources at
hand, and the state of the PWM channels when the program starts. -/
structure Config where
  POWER_BUTTON_PIN : Nat
  PUMP_BUTTON_PIN : Nat
  VEGETABLE_BUTTON_PIN : Nat
  FLOWER_BUTTON_PIN : Nat
  SHIFT_REGISTER_DATA_PIN : Nat
  SHIFT_REGISTER_CLOCK_PIN : Nat
  SHIFT_REGISTER_LATCH_PIN : Nat
  POWER_DIODE_PIN : Nat
  WIFI_DIODE_PIN : Nat
  PUMP_DIODE_PIN : Nat
  VEGETABLE_DIODE_PIN : Nat
  FLOWER_DIODE_PIN : Nat
  ledc : Ledc
deriving DecidableEq, Repr

/-- The global objects as their constructors leave them, before `setup`. -/
def System.boot (c : Config) : System :=
  { appState := AppState.new,
    wifiManager := WiFiManager.new,
    allButtons :=
      { Power := ButtonManager.new c.POWER_BUTTON_PIN,
        Pump := ButtonManager.new c.PUMP_BUTTON_PIN,
        Vegetable := ButtonManager.new c.VEGETABLE_BUTTON_PIN,
        Flower := ButtonManager.new c.FLOWER_BUTTON_PIN },
    ledController :=
      LEDController.new
        (ShiftRegister.new (c.SHIFT_REGISTER_DATA_PIN % 256)
          (c.SHIFT_REGISTER_CLOCK_PIN % 256) (c.SHIFT_REGISTER_LATCH_PIN % 256))
        c.ledc c.POWER_DIODE_PIN c.WIFI_DIODE_PIN c.PUMP_DIODE_PIN
        c.VEGETABLE_DIODE_PIN c.FLOWER_DIODE_PIN }

/-- Function `setup` of `main.cpp`. -/
def setup (s : System) : System :=
  let lc := s.ledController.tuneMultipleLedAttributes
    [(DiodeType.Power, false), (DiodeType.WiFi, false), (DiodeType.Pump, false),
     (DiodeType.Vegetable, false), (DiodeType.Flower, false)]
  let lc := lc.setLedStripMode STRIP_OFF
  let a := s.appState.setPowerState false
  let a := a.setWiFiLedDiodeState false
  let a := a.setPumpLedDiodeState false
  let a := a.setVegetableLedDiodeState false
  let a := a.setFlowerLedDiodeState false
  let a := a.setLedStripState false
  { s with ledController := lc, appState := a }

/-- The values `handlePowerButtonClick` reads from the platform:
`guardStatus` is the `WiFi.status()` read of `isConnected()` in the guard of
the power-on branch, `connectStatus` and `connectNow` the reads of
`connect()`, and `accepted`, `startMillis`, `polls` the reads of
`disconnect()`. -/
structure PowerClickReads where
  guardStatus : WlStatus
  connectStatus : WlStatus
  connectNow : Nat
  accepted : Bool
  startMillis : Nat
  polls : List (WlStatus × Nat)
deriving DecidableEq, Repr

/-- Function `handlePowerButtonClick` of `main.cpp`. The result is `none`
when the polling loop of `disconnect()` is not left within `r.polls`. -/
def handlePowerButtonClick (s : System) (r : PowerClickReads) : Option System :=
  if !s.appState.isPowerOn then
    if s.wifiManager.isConnecting then some s
    else
      let (c, w) := s.wifiManager.isConnected r.guardStatus
      if !c then
        let a := s.appState.setPowerState true
        let w := w.connect r.connectStatus r.connectNow
        let lc := s.ledController.tuneMultipleLedAttributes
          [(DiodeType.Power, true), (DiodeType.WiFi, true)]
        some { s with appState := a, wifiManager := w, ledController := lc }
      else some { s with wifiManager := w }
  else
    let a := s.appState.setPowerState false
    match s.wifiManager.disconnect r.accepted r.startMillis r.polls with
    | none => none
    | some w =>
      let lc := s.ledController.tuneMultipleLedAttributes
        [(DiodeType.Power, false), (DiodeType.WiFi, false), (DiodeType.Pump, false),
         (DiodeType.Vegetable, false), (DiodeType.Flower, false)]
      let lc := lc.setLedStripMode STRIP_OFF
      let a := a.setWiFiLedDiodeState false
      let a := a.setPumpLedDiodeState false
      let a := a.setVegetableLedDiodeState false
      let a := a.setFlowerLedDiodeState false
      let a := a.setLedStripState false
      some { s with appState := a, wifiManager := w, ledController := lc }

/-- Function `handlePumpButtonClick` of `main.cpp`. -/
def handlePumpButtonClick (s : System) : System :=
  if s.appState.isPowerOn then
    { s with ledController := s.ledController.toggleLedDiodeState DiodeType.Pump }
  else s

/-- Function `handleMultipleLedInteractions` of `main.cpp`. The two
reference parameters are returned as the first two components of the
result. -/
def handleMultipleLedInteractions (s : System)
    (currentLedDiodeState otherLedDiodeState : Bool)
    (currentLedDiode otherLedDiode : DiodeType) (ledStripMode : Nat) :
    Bool × Bool × System :=
  if !currentLedDiodeState then
    let lc := s.ledController.setLedDiodeState currentLedDiode true
    let lc := lc.setLedDiodeState otherLedDiode false
    let lc := lc.setLedStripMode ledStripMode
    (true, false, { s with ledController := lc, appState := s.appState.setLedStripState true })
  else
    let lc := s.ledController.setLedDiodeState currentLedDiode false
    let (lc, other) :=
      if otherLedDiodeState then (lc.setLedDiodeState otherLedDiode false, false)
      else (lc, otherLedDiodeState)
    let lc := lc.setLedStripMode STRIP_OFF
    (false, other, { s with ledController := lc, appState := s.appState.setLedStripState false })

/-- Function `handleVegetableButtonClick` of `main.cpp`. -/
def handleVegetableButtonClick (s : System) : System :=
  if s.appState.isPowerOn then
    let currentVegetableLedDiodeState := s.appState.getStateForLedDiode DiodeType.Vegetable
    let currentFlowerLedDiodeState := s.appState.getStateForLedDiode DiodeType.Flower
    let (veg, flo, s1) := handleMultipleLedInteractions s currentVegetableLedDiodeState
      currentFlowerLedDiodeState DiodeType.Vegetable DiodeType.Flower 0
    { s1 with appState := (s1.appState.setVegetableLedDiodeState veg).setFlowerLedDiodeState flo }
  else if s.appState.isVegetableLedDiodeOn then
    { s with appState := s.appState.setVegetableLedDiodeState false }
  else s

/-- Function `handleFlowerButtonClick` of `main.cpp`. -/
def handleFlowerButtonClick (s : System) : System :=
  if s.appState.isPowerOn then
    let currentFlowerLedDiodeState := s.appState.getStateForLedDiode DiodeType.Flower
    let currentVegetableLedDiodeState := s.appState.getStateForLedDiode DiodeType.Vegetable
    let (flo, veg, s1) := handleMultipleLedInteractions s currentFlowerLedDiodeState
      currentVegetableLedDiodeState DiodeType.Flower DiodeType.Vegetable 1
    { s1 with appState := (s1.appState.setFlowerLedDiodeState flo).setVegetableLedDiodeState veg }
  else if s.appState.isFlowerLedDiodeOn then
    { s with appState := s.appState.setFlowerLedDiodeState false }
  else s

/-- The two growth buttons. -/
inductive GrowClick where
  | vegetable | flower
deriving DecidableEq, Repr

/-- The handler of one growth button click. -/
def GrowClick.handle (s : System) : GrowClick → System
  | .vegetable => handleVegetableButtonClick s
  | .flower => handleFlowerButtonClick s

/-- A sequence of growth button clicks, handled first click first. -/
def handleGrowClicks (s : System) : List GrowClick → System
  | [] => s
  | c :: rest => handleGrowClicks (c.handle s) rest

/-- Bit of an indicator in the in-memory register byte. -/
def System.diodeBit (s : System) (d : DiodeType) : Bool :=
  s.ledController.shiftRegister.getPinState (s.ledController.getLedDiodePin d)

/-- The three PWM duties of the strip, channels 0, 1, 2. -/
def System.duties (s : System) : Nat × Nat × Nat :=
  (s.ledController.ledc.duty0, s.ledController.ledc.duty1, s.ledController.ledc.duty2)

/-- Function `updateWiFiLedDiodeState` of `main.cpp`. `wifiBlinkCount` is
the constant `WIFI_BLINK_COUNT` of `Config.hpp`, `status` the `WiFi.status()`
read of `isConnected()`, which is reached only when `connecting` is false,
and `t1`, `t2` the `millis()` reads of the blink. -/
def updateWiFiLedDiodeState (s : System) (wifiBlinkCount : Int) (status : WlStatus)
    (t1 t2 : Nat) : System :=
  if s.wifiManager.isConnecting then
    { s with ledController := s.ledController.blinkWiFiLedDiode wifiBlinkCount t1 t2 }
  else
    let (c, w) := s.wifiManager.isConnected status
    if c then
      { s with wifiManager := w,
               ledController := s.ledController.setLedDiodeState DiodeType.WiFi true }
    else
      { s with wifiManager := w,
               ledController := s.ledController.setLedDiodeState DiodeType.Pump false }

/-- The branch `updateWiFiLedDiodeState` takes. -/
inductive WiFiLedBranch where
  | blink | wifiOn | pumpOff
deriving DecidableEq, Repr

/-- The conditions of `updateWiFiLedDiodeState`, in the order of the source:
`isConnecting()`, then `isConnected()` on the status read, else the last
branch, which calls `setLedDiodeState(DiodeType::Pump, false)`. -/
def updateWiFiLedDiodeStateBranch (s : System) (status : WlStatus) : WiFiLedBranch :=
  if s.wifiManager.isConnecting then WiFiLedBranch.blink
  else if (s.wifiManager.isConnected status).1 then WiFiLedBranch.wifiOn
  else WiFiLedBranch.pumpOff

/-- The tail of `loop`: `if (appState.isPowerOn())` then
`handleConnectionResult()` and `updateWiFiLedDiodeState()`. The arguments are
the platform reads of the two calls, in order. -/
def loopTail (s : System) (wifiBlinkCount : Int) (currentTime : Nat)
    (status connectStatus : WlStatus) (connectNow : Nat) (tailStatus ledStatus : WlStatus)
    (t1 t2 : Nat) : System :=
  if s.appState.isPowerOn then
    let w := s.wifiManager.handleConnectionResult currentTime status connectStatus
      connectNow tailStatus
    let s1 := { s with wifiManager := w }
    updateWiFiLedDiodeState s1 wifiBlinkCount ledStatus t1 t2
  else s

/-- A click on one of the four buttons; a power click carries the platform
reads of its handler. -/
inductive Click where
  | power (r : PowerClickReads)
  | pump
  | vegetable
  | flower
deriving DecidableEq, Repr

/-- The handler `loop` calls for a click. The result is `none` when the
handler does not return within the given reads. -/
def Click.handle (s : System) : Click → Option System
  | .power r => handlePowerButtonClick s r
  | .pump => some (handlePumpButtonClick s)
  | .vegetable => some (handleVegetableButtonClick s)
  | .flower => some (handleFlowerButtonClick s)

/-- A sequence of clicks, handled first click first. -/
def handleClicks (s : System) : List Click → Option System
  | [] => some s
  | c :: rest =>
      match c.handle s with
      | none => none
      | some s1 => handleClicks s1 rest

/-! ## Observations on the shift register output -/

/-- The bytes handed to `shiftOut` so far, oldest first. -/
def ShiftRegister.transmitted (sr : ShiftRegister) : List Nat :=
  sr.calls.filterMap fun
    | PinCall.shiftOut _ _ _ val => some val
    | PinCall.digitalWrite _ _ => none

/-- The last byte transmitted by `write()`, if any. -/
def ShiftRegister.lastTransmitted (sr : ShiftRegister) : Option Nat :=
  sr.transmitted.getLast?

/-- The in-memory byte equals the last byte transmitted. -/
@[reducible] def ShiftRegister.inSync (sr : ShiftRegister) : Prop :=
  sr.lastTransmitted = some sr.registers

/-- An operation taking the register from `before` to `after` keeps it
serialized: it preserves `inSync`, and when it changes the in-memory byte it
leaves the register `inSync`. -/
def ShiftRegister.KeepsSync (before after : ShiftRegister) : Prop :=
  (before.inSync → after.inSync) ∧ (after.registers ≠ before.registers → after.inSync)

/-- The bytes transmitted while the register went from `before` to
`after`. -/
def ShiftRegister.transmittedSince (before after : ShiftRegister) : List Nat :=
  after.transmitted.drop before.transmitted.length

/-! ## Invariant of the strip flag -/

/-- The strip flag is on exactly when one of the two growth booleans is, the
duties are (0,0,0) exactly when the flag is off, and with the power off both
growth booleans are off. -/
def System.StripInv (s : System) : Prop :=
  s.appState.isLedStripOn
      = (s.appState.isVegetableLedDiodeOn || s.appState.isFlowerLedDiodeOn)
  ∧ (s.duties = (0, 0, 0) ↔ s.appState.isLedStripOn = false)
  ∧ (s.appState.isPowerOn = false →
      s.appState.isVegetableLedDiodeOn = false ∧ s.appState.isFlowerLedDiodeOn = false)

/-! ## Runs of the WiFi indicator policy -/

/-- Consecutive `updateWiFiLedDiodeStatus(isConnected)` calls; each element
of the list is the pair of `millis()` reads of one call. -/
def LEDController.updateWiFiLedDiodeStatusRun (lc : LEDController) (isConnected : Bool) :
    List (Nat × Nat) → LEDController
  | [] => lc
  | (t1, t2) :: rest =>
      (lc.updateWiFiLedDiodeStatus isConnected t1 t2).updateWiFiLedDiodeStatusRun
        isConnected rest

/-- Consecutive `blinkWiFiLedDiode()` calls with the default `count = 1`;
each element of the list is the pair of `millis()` reads of one call. -/
def LEDController.blinkRun (lc : LEDController) : List (Nat × Nat) → LEDController
  | [] => lc
  | (t1, t2) :: rest => (lc.blinkWiFiLedDiode 1 t1 t2).blinkRun rest

/-- Consecutive executions of the last branch of `updateWiFiLedDiodeStatus`
(WiFi bit LOW, `write()`, `ledBlinkState = false`). -/
def LEDController.forceWiFiLowRun (lc : LEDController) : Nat → LEDController
  | 0 => lc
  | n + 1 =>
      LEDController.forceWiFiLowRun
        { lc with
            shiftRegister := (lc.shiftRegister.setPinState lc.wifiLedDiodePin LOW).write,
            ledBlinkState := false } n

/-! ## PumpController.cpp -/

/-- The `PumpController` object; the shift register it refers to is passed
to its methods. -/
structure PumpController where
  motorPumpState : Bool
deriving DecidableEq, Repr

/-- Constructor `PumpController::PumpController`. -/
def PumpController.new : PumpController := { motorPumpState := false }

/-- Method `PumpController::setMotorPumpState`: pin 2 of the shift register
is set and written. -/
def PumpController.setMotorPumpState (_p : PumpController) (sr : ShiftRegister)
    (state : Bool) : PumpController × ShiftRegister :=
  ({ motorPumpState := state }, (sr.setPinState 2 state).write)

/-- Method `PumpController::getMotorPumpState`. -/
def PumpController.getMotorPumpState (p : PumpController) : Bool := p.motorPumpState

/-! ## Concrete configuration used to instantiate the theorems -/

/-- A pin assignment with the five indicators on bits 0 to 4. -/
def demoConfig : Config :=
  { POWER_BUTTON_PIN := 32, PUMP_BUTTON_PIN := 33, VEGETABLE_BUTTON_PIN := 25,
    FLOWER_BUTTON_PIN := 26, SHIFT_REGISTER_DATA_PIN := 13,
    SHIFT_REGISTER_CLOCK_PIN := 14, SHIFT_REGISTER_LATCH_PIN := 15,
    POWER_DIODE_PIN := 0, WIFI_DIODE_PIN := 1, PUMP_DIODE_PIN := 2,
    VEGETABLE_DIODE_PIN := 3, FLOWER_DIODE_PIN := 4, ledc := ⟨0, 0, 0⟩ }

/-- The system after `setup` under `demoConfig`. -/
def demoSystem : System := setup (System.boot demoConfig)

/-- Platform reads of a power click while the link is down; a teardown
request would be accepted and confirmed at the second poll. -/
def demoReads : PowerClickReads :=
  { guardStatus := WlStatus.WL_DISCONNECTED, connectStatus := WlStatus.WL_DISCONNECTED,
    connectNow := 1000, accepted := true, startMillis := 2000,
    polls := [(WlStatus.WL_CONNECTED, 2000), (WlStatus.WL_DISCONNECTED, 2100)] }

/-- The system after `setup` and one power click. -/
def demoPoweredOn : System :=
  (handlePowerButtonClick demoSystem demoReads).getD demoSystem

/-- The system after `setup`, a power click and a Vegetable click. -/
def demoVegetableOn : System := handleVegetableButtonClick demoPoweredOn

/-- The system after `setup`, a power click and a Flower click. -/
def demoFlowerOn : System := handleFlowerButtonClick demoPoweredOn

/-! ## Shared lemmas on the register byte -/

theorem getPinState_eq_testBit (sr : ShiftRegister) (pin : Nat) :
    sr.getPinState pin = sr.registers.testBit pin := by
  unfold ShiftRegister.getPinState Nat.testBit
  rw [Nat.land_comm]

theorem write_registers (sr : ShiftRegister) : sr.write.registers = sr.registers := rfl

theorem setPinState_testBit (sr : ShiftRegister) (pin q : Nat) (state : Bool)
    (hp : pin < 8) (hq : q < 8) :
    (sr.setPinState pin state).registers.testBit q
      = if q = pin then state else sr.registers.testBit q := by
  have h32 : pin < 32 := by omega
  have hlt : 2 ^ pin < 2 ^ 32 := Nat.pow_lt_pow_right (by norm_num) h32
  have hmod : (1 <<< pin) % 2 ^ 32 = 2 ^ pin := by
    rw [Nat.one_shiftLeft, Nat.mod_eq_of_lt hlt]
  have h256 : (256 : Nat) = 2 ^ 8 := by norm_num
  cases state with
  | true =>
    simp only [ShiftRegister.setPinState, if_true, hmod]
    rw [h256, Nat.testBit_mod_two_pow, Nat.testBit_lor, Nat.testBit_two_pow]
    by_cases h : q = pin
    · subst h; simp [hq]
    · have h2 : ¬ pin = q := fun e => h e.symm
      simp [hq, h, h2]
  | false =>
    simp only [ShiftRegister.setPinState, hmod, Bool.false_eq_true, if_false]
    have hsub : 2 ^ 32 - 1 - 2 ^ pin = 2 ^ 32 - (2 ^ pin + 1) := by omega
    rw [h256, Nat.testBit_mod_two_pow, Nat.testBit_land, hsub,
      Nat.testBit_two_pow_sub_succ hlt, Nat.testBit_two_pow]
    have hq32 : q < 32 := by omega
    by_cases h : q = pin
    · subst h; simp [hq]
    · have h2 : ¬ pin = q := fun e => h e.symm
      simp [hq, hq32, h, h2]

theorem setLedDiodeState_getPinState (lc : LEDController) (d : DiodeType) (state : Bool)
    (q : Nat) (hp : lc.getLedDiodePin d < 8) (hq : q < 8) :
    (lc.setLedDiodeState d state).shiftRegister.getPinState q
      = if q = lc.getLedDiodePin d then state else lc.shiftRegister.getPinState q := by
  rw [getPinState_eq_testBit, getPinState_eq_testBit]
  simp only [LEDController.setLedDiodeState, write_registers]
  exact setPinState_testBit _ _ _ _ hp hq

theorem setLedDiodeState_getLedDiodePin (lc : LEDController) (d e : DiodeType)
    (state : Bool) :
    (lc.setLedDiodeState d state).getLedDiodePin e = lc.getLedDiodePin e := by
  cases e <;> rfl

/-! ## C1 -/

/-- C1: for each of the five indicators whose configured pin is in 0..7,
every prior register content and every boolean `state`, `getPinState` on the
mapped pin right after `setLedDiodeState` returns `state`. -/
theorem setLedDiodeState_then_getPinState (lc : LEDController) (ledDiode : DiodeType)
    (state : Bool) (hpin : lc.getLedDiodePin ledDiode < 8) :
    (lc.setLedDiodeState ledDiode state).shiftRegister.getPinState
      ((lc.setLedDiodeState ledDiode state).getLedDiodePin ledDiode) = state := by
  rw [setLedDiodeState_getLedDiodePin, setLedDiodeState_getPinState lc _ _ _ hpin hpin]
  simp

/-- Instance of C1: the Vegetable indicator of the demo system, set to on. -/
theorem setLedDiodeState_then_getPinState_witness :
    demoPoweredOn.ledController.getLedDiodePin DiodeType.Vegetable < 8
    ∧ (demoPoweredOn.ledController.setLedDiodeState DiodeType.Vegetable true).shiftRegister.getPinState
        ((demoPoweredOn.ledController.setLedDiodeState DiodeType.Vegetable true).getLedDiodePin
          DiodeType.Vegetable) = true :=
  ⟨by decide, setLedDiodeState_then_getPinState demoPoweredOn.ledController
    DiodeType.Vegetable true (by decide)⟩

/-! ## C2 -/

/-- C2: for every register content `b`, `write()` adds to the output exactly
the frame latch LOW, one `shiftOut` of `b`, latch HIGH; on the pins this is
latch LOW, then the 8 data bits bit 7, bit 6, ..., bit 0 of `b` (each
followed by one clock pulse), then latch HIGH; and the in-memory byte is
still `b`. -/
theorem write_frame_msb_first (sr : ShiftRegister) :
    sr.write.registers = sr.registers
    ∧ sr.write.calls = sr.calls ++
        [PinCall.digitalWrite sr.latchPin LOW,
         PinCall.shiftOut sr.dataPin sr.clockPin true sr.registers,
         PinCall.digitalWrite sr.latchPin HIGH]
    ∧ (sr.write.calls.drop sr.calls.length).flatMap PinCall.signals =
        [PinWrite.mk sr.latchPin LOW]
        ++ ([7, 6, 5, 4, 3, 2, 1, 0].flatMap fun i =>
              [PinWrite.mk sr.dataPin (sr.registers.testBit i),
               PinWrite.mk sr.clockPin HIGH, PinWrite.mk sr.clockPin LOW])
        ++ [PinWrite.mk sr.latchPin HIGH] := by
  have hr : List.range 8 = [0, 1, 2, 3, 4, 5, 6, 7] := by decide
  refine ⟨rfl, rfl, ?_⟩
  simp [ShiftRegister.write, PinCall.signals, shiftOutSignals, hr, Nat.testBit,
    Nat.land_comm]

/-! ## Shared lemmas on the indicator driver and the click handlers -/

theorem setLedStripMode_shiftRegister (lc : LEDController) (m : Nat) :
    (lc.setLedStripMode m).shiftRegister = lc.shiftRegister := by
  unfold LEDController.setLedStripMode
  split <;> rfl

theorem setLedStripMode_getLedDiodePin (lc : LEDController) (m : Nat) (d : DiodeType) :
    (lc.setLedStripMode m).getLedDiodePin d = lc.getLedDiodePin d := by
  unfold LEDController.setLedStripMode
  split <;> cases d <;> rfl

theorem setLedStripMode_ledc_zero (lc : LEDController) :
    (lc.setLedStripMode 0).ledc = ⟨255, 0, 0⟩ := rfl

theorem setLedStripMode_ledc_one (lc : LEDController) :
    (lc.setLedStripMode 1).ledc = ⟨0, 255, 0⟩ := rfl

theorem setLedStripMode_ledc_off (lc : LEDController) :
    (lc.setLedStripMode STRIP_OFF).ledc = ⟨0, 0, 0⟩ := rfl

/-- Effect of a Vegetable click on the application state, the pin table and
the PWM duties of a powered-on system. -/
theorem handleVegetableButtonClick_state (s : System) (hpow : s.appState.isPowerOn = true) :
    (handleVegetableButtonClick s).appState.isPowerOn = true
    ∧ (∀ d, (handleVegetableButtonClick s).ledController.getLedDiodePin d
          = s.ledController.getLedDiodePin d)
    ∧ (handleVegetableButtonClick s).appState.isVegetableLedDiodeOn
        = !s.appState.isVegetableLedDiodeOn
    ∧ (handleVegetableButtonClick s).appState.isFlowerLedDiodeOn = false
    ∧ (handleVegetableButtonClick s).appState.isLedStripOn
        = !s.appState.isVegetableLedDiodeOn
    ∧ (handleVegetableButtonClick s).duties
        = (if s.appState.isVegetableLedDiodeOn then (0, 0, 0) else (255, 0, 0)) := by
  obtain ⟨a, w, bs, lc⟩ := s
  obtain ⟨pw, wi, pu, V, F, st, mo⟩ := a
  simp only [AppState.isPowerOn] at hpow
  subst hpow
  cases V <;> cases F <;>
    simp [handleVegetableButtonClick, handleMultipleLedInteractions, AppState.isPowerOn,
      AppState.getStateForLedDiode, AppState.setLedStripState,
      AppState.setVegetableLedDiodeState, AppState.setFlowerLedDiodeState,
      AppState.isVegetableLedDiodeOn, AppState.isFlowerLedDiodeOn, AppState.isLedStripOn,
      System.duties, setLedStripMode_getLedDiodePin, setLedDiodeState_getLedDiodePin,
      setLedStripMode_ledc_zero, setLedStripMode_ledc_off]

/-- Effect of a Vegetable click on the two growth bits of the register. -/
theorem handleVegetableButtonClick_bits (s : System) (hpow : s.appState.isPowerOn = true)
    (hv : s.ledController.getLedDiodePin DiodeType.Vegetable < 8)
    (hf : s.ledController.getLedDiodePin DiodeType.Flower < 8)
    (hne : s.ledController.getLedDiodePin DiodeType.Vegetable
      ≠ s.ledController.getLedDiodePin DiodeType.Flower) :
    (handleVegetableButtonClick s).diodeBit DiodeType.Vegetable
        = !s.appState.isVegetableLedDiodeOn
    ∧ (handleVegetableButtonClick s).diodeBit DiodeType.Flower =
        (if s.appState.isVegetableLedDiodeOn && !s.appState.isFlowerLedDiodeOn
          then s.diodeBit DiodeType.Flower else false) := by
  obtain ⟨a, w, bs, lc⟩ := s
  obtain ⟨pw, wi, pu, V, F, st, mo⟩ := a
  simp only [AppState.isPowerOn] at hpow
  subst hpow
  simp only at hv hf hne
  have hne2 : ¬ lc.getLedDiodePin DiodeType.Flower = lc.getLedDiodePin DiodeType.Vegetable :=
    fun e => hne e.symm
  cases V <;> cases F <;>
    simp [handleVegetableButtonClick, handleMultipleLedInteractions, AppState.isPowerOn,
      AppState.getStateForLedDiode, AppState.isVegetableLedDiodeOn,
      AppState.isFlowerLedDiodeOn, System.diodeBit, setLedStripMode_shiftRegister,
      setLedStripMode_getLedDiodePin, setLedDiodeState_getLedDiodePin,
      setLedDiodeState_getPinState, hv, hf, hne, hne2]

/-- Effect of a Flower click on the application state, the pin table and the
PWM duties of a powered-on system. -/
theorem handleFlowerButtonClick_state (s : System) (hpow : s.appState.isPowerOn = true) :
    (handleFlowerButtonClick s).appState.isPowerOn = true
    ∧ (∀ d, (handleFlowerButtonClick s).ledController.getLedDiodePin d
          = s.ledController.getLedDiodePin d)
    ∧ (handleFlowerButtonClick s).appState.isFlowerLedDiodeOn
        = !s.appState.isFlowerLedDiodeOn
    ∧ (handleFlowerButtonClick s).appState.isVegetableLedDiodeOn = false
    ∧ (handleFlowerButtonClick s).appState.isLedStripOn
        = !s.appState.isFlowerLedDiodeOn
    ∧ (handleFlowerButtonClick s).duties
        = (if s.appState.isFlowerLedDiodeOn then (0, 0, 0) else (0, 255, 0)) := by
  obtain ⟨a, w, bs, lc⟩ := s
  obtain ⟨pw, wi, pu, V, F, st, mo⟩ := a
  simp only [AppState.isPowerOn] at hpow
  subst hpow
  cases V <;> cases F <;>
    simp [handleFlowerButtonClick, handleMultipleLedInteractions, AppState.isPowerOn,
      AppState.getStateForLedDiode, AppState.setLedStripState,
      AppState.setVegetableLedDiodeState, AppState.setFlowerLedDiodeState,
      AppState.isVegetableLedDiodeOn, AppState.isFlowerLedDiodeOn, AppState.isLedStripOn,
      System.duties, setLedStripMode_getLedDiodePin, setLedDiodeState_getLedDiodePin,
      setLedStripMode_ledc_one, setLedStripMode_ledc_off]

/-- Effect of a Flower click on the two growth bits of the register. -/
theorem handleFlowerButtonClick_bits (s : System) (hpow : s.appState.isPowerOn = true)
    (hv : s.ledController.getLedDiodePin DiodeType.Vegetable < 8)
    (hf : s.ledController.getLedDiodePin DiodeType.Flower < 8)
    (hne : s.ledController.getLedDiodePin DiodeType.Vegetable
      ≠ s.ledController.getLedDiodePin DiodeType.Flower) :
    (handleFlowerButtonClick s).diodeBit DiodeType.Flower
        = !s.appState.isFlowerLedDiodeOn
    ∧ (handleFlowerButtonClick s).diodeBit DiodeType.Vegetable =
        (if s.appState.isFlowerLedDiodeOn && !s.appState.isVegetableLedDiodeOn
          then s.diodeBit DiodeType.Vegetable else false) := by
  obtain ⟨a, w, bs, lc⟩ := s
  obtain ⟨pw, wi, pu, V, F, st, mo⟩ := a
  simp only [AppState.isPowerOn] at hpow
  subst hpow
  simp only at hv hf hne
  have hne2 : ¬ lc.getLedDiodePin DiodeType.Flower = lc.getLedDiodePin DiodeType.Vegetable :=
    fun e => hne e.symm
  cases V <;> cases F <;>
    simp [handleFlowerButtonClick, handleMultipleLedInteractions, AppState.isPowerOn,
      AppState.getStateForLedDiode, AppState.isVegetableLedDiodeOn,
      AppState.isFlowerLedDiodeOn, System.diodeBit, setLedStripMode_shiftRegister,
      setLedStripMode_getLedDiodePin, setLedDiodeState_getLedDiodePin,
      setLedDiodeState_getPinState, hv, hf, hne, hne2]

theorem handleGrowClicks_append (s : System) (cs : List GrowClick) (c : GrowClick) :
    handleGrowClicks s (cs ++ [c]) = c.handle (handleGrowClicks s cs) := by
  induction cs generalizing s with
  | nil => rfl
  | cons x xs ih => simpa [handleGrowClicks] using ih (x.handle s)

/-- Growth clicks keep a powered-on system powered on and never change the
pin table. -/
theorem handleGrowClicks_frame (s : System) (hpow : s.appState.isPowerOn = true)
    (cs : List GrowClick) :
    (handleGrowClicks s cs).appState.isPowerOn = true
    ∧ ∀ d, (handleGrowClicks s cs).ledController.getLedDiodePin d
        = s.ledController.getLedDiodePin d := by
  induction cs generalizing s with
  | nil => exact ⟨hpow, fun _ => rfl⟩
  | cons c cs ih =>
    have hstep : (c.handle s).appState.isPowerOn = true
        ∧ ∀ d, (c.handle s).ledController.getLedDiodePin d
            = s.ledController.getLedDiodePin d := by
      cases c
      · exact ⟨(handleVegetableButtonClick_state s hpow).1,
          (handleVegetableButtonClick_state s hpow).2.1⟩
      · exact ⟨(handleFlowerButtonClick_state s hpow).1,
          (handleFlowerButtonClick_state s hpow).2.1⟩
    obtain ⟨h1, h2⟩ := ih (c.handle s) hstep.1
    exact ⟨h1, fun d => (h2 d).trans (hstep.2 d)⟩

/-- After one growth click on a powered-on system at most one of the two
growth indicators is on, in the application state and, for distinct pins in
0..7, in the register. -/
theorem GrowClick.handle_exclusive (s : System) (hpow : s.appState.isPowerOn = true)
    (c : GrowClick) :
    ¬ ((c.handle s).appState.isVegetableLedDiodeOn = true
        ∧ (c.handle s).appState.isFlowerLedDiodeOn = true)
    ∧ (s.ledController.getLedDiodePin DiodeType.Vegetable < 8 →
        s.ledController.getLedDiodePin DiodeType.Flower < 8 →
        s.ledController.getLedDiodePin DiodeType.Vegetable
          ≠ s.ledController.getLedDiodePin DiodeType.Flower →
        ¬ ((c.handle s).diodeBit DiodeType.Vegetable = true
            ∧ (c.handle s).diodeBit DiodeType.Flower = true)) := by
  cases c
  · refine ⟨?_, fun hv hf hne => ?_⟩
    · have h := (handleVegetableButtonClick_state s hpow).2.2.2.1
      simp [GrowClick.handle, h]
    · obtain ⟨h1, h2⟩ := handleVegetableButtonClick_bits s hpow hv hf hne
      simp only [GrowClick.handle, h1, h2]
      cases s.appState.isVegetableLedDiodeOn <;> simp
  · refine ⟨?_, fun hv hf hne => ?_⟩
    · have h := (handleFlowerButtonClick_state s hpow).2.2.2.1
      simp [GrowClick.handle, h]
    · obtain ⟨h1, h2⟩ := handleFlowerButtonClick_bits s hpow hv hf hne
      simp only [GrowClick.handle, h1, h2]
      cases s.appState.isFlowerLedDiodeOn <;> simp

/-! ## C3 -/

/-- C3: for every powered-on start state and every non-empty sequence of
Vegetable and Flower click handlers, when the last handler has returned at
most one of `isVegetableLedDiodeOn`, `isFlowerLedDiodeOn` is true, and, when
the Vegetable and Flower pins are distinct and in 0..7, at most one of the
two register bits is set. As the sequence is arbitrary this holds after each
handler of a run. -/
theorem grow_clicks_mutual_exclusion (s : System) (clicks : List GrowClick)
    (hpow : s.appState.isPowerOn = true) (hclicks : clicks ≠ []) :
    ¬ ((handleGrowClicks s clicks).appState.isVegetableLedDiodeOn = true
        ∧ (handleGrowClicks s clicks).appState.isFlowerLedDiodeOn = true)
    ∧ (s.ledController.getLedDiodePin DiodeType.Vegetable < 8 →
        s.ledController.getLedDiodePin DiodeType.Flower < 8 →
        s.ledController.getLedDiodePin DiodeType.Vegetable
          ≠ s.ledController.getLedDiodePin DiodeType.Flower →
        ¬ ((handleGrowClicks s clicks).diodeBit DiodeType.Vegetable = true
            ∧ (handleGrowClicks s clicks).diodeBit DiodeType.Flower = true)) := by
  obtain ⟨cs, c, rfl⟩ : ∃ cs c, clicks = cs ++ [c] :=
    ⟨clicks.dropLast, clicks.getLast hclicks, (List.dropLast_append_getLast hclicks).symm⟩
  rw [handleGrowClicks_append]
  obtain ⟨hp, hpins⟩ := handleGrowClicks_frame s hpow cs
  have h := GrowClick.handle_exclusive (handleGrowClicks s cs) hp c
  refine ⟨h.1, fun hv hf hne => h.2 ?_ ?_ ?_⟩
  · rw [hpins]; exact hv
  · rw [hpins]; exact hf
  · rw [hpins, hpins]; exact hne

/-- Instance of C3: three growth clicks from the demo system with Vegetable on. -/
theorem grow_clicks_mutual_exclusion_witness :
    (demoVegetableOn.appState.isPowerOn = true
      ∧ [GrowClick.flower, GrowClick.flower, GrowClick.vegetable] ≠ [])
    ∧ ¬ ((handleGrowClicks demoVegetableOn
            [GrowClick.flower, GrowClick.flower, GrowClick.vegetable]).appState.isVegetableLedDiodeOn = true
        ∧ (handleGrowClicks demoVegetableOn
            [GrowClick.flower, GrowClick.flower, GrowClick.vegetable]).appState.isFlowerLedDiodeOn = true)
    ∧ ¬ ((handleGrowClicks demoVegetableOn
            [GrowClick.flower, GrowClick.flower, GrowClick.vegetable]).diodeBit DiodeType.Vegetable = true
        ∧ (handleGrowClicks demoVegetableOn
            [GrowClick.flower, GrowClick.flower, GrowClick.vegetable]).diodeBit DiodeType.Flower = true) :=
  ⟨⟨by decide, by decide⟩,
   (grow_clicks_mutual_exclusion demoVegetableOn
      [GrowClick.flower, GrowClick.flower, GrowClick.vegetable] (by decide) (by decide)).1,
   (grow_clicks_mutual_exclusion demoVegetableOn
      [GrowClick.flower, GrowClick.flower, GrowClick.vegetable] (by decide) (by decide)).2
      (by decide) (by decide) (by decide)⟩

/-! ## Shared lemmas on power-off -/

theorem pollLoopExits_of_mem (startMillis : Nat) (polls : List (WlStatus × Nat))
    (h : ∃ p ∈ polls, p.1 = WlStatus.WL_DISCONNECTED ∨ subU32 p.2 startMillis > 5000) :
    WiFiManager.pollLoopExits startMillis polls = true := by
  induction polls with
  | nil => simp at h
  | cons q qs ih =>
    obtain ⟨st, t⟩ := q
    unfold WiFiManager.pollLoopExits
    split
    · rename_i hc
      apply ih
      obtain ⟨p, hp, hstop⟩ := h
      rcases List.mem_cons.mp hp with rfl | hmem
      · exfalso
        simp only [Bool.and_eq_true, bne_iff_ne, ne_eq, decide_eq_true_eq] at hc
        simp only at hstop
        rcases hstop with h1 | h2
        · exact hc.1 h1
        · omega
      · exact ⟨p, hmem, hstop⟩
    · rfl

/-- Clearing the five indicators clears their five register bits. -/
theorem tune_all_off_bits (lc : LEDController)
    (hpins : ∀ d, lc.getLedDiodePin d < 8) (d : DiodeType) :
    (lc.tuneMultipleLedAttributes
      [(DiodeType.Power, false), (DiodeType.WiFi, false), (DiodeType.Pump, false),
       (DiodeType.Vegetable, false), (DiodeType.Flower, false)]).shiftRegister.getPinState
      (lc.getLedDiodePin d) = false := by
  have h1 := hpins DiodeType.Power
  have h2 := hpins DiodeType.WiFi
  have h3 := hpins DiodeType.Pump
  have h4 := hpins DiodeType.Vegetable
  have h5 := hpins DiodeType.Flower
  cases d <;>
    simp [LEDController.tuneMultipleLedAttributes, setLedDiodeState_getPinState,
      setLedDiodeState_getLedDiodePin, h1, h2, h3, h4, h5]

theorem tune_getLedDiodePin (lc : LEDController) (l : List (DiodeType × Bool))
    (d : DiodeType) :
    (lc.tuneMultipleLedAttributes l).getLedDiodePin d = lc.getLedDiodePin d := by
  induction l generalizing lc with
  | nil => rfl
  | cons x xs ih =>
    obtain ⟨e, b⟩ := x
    simp [LEDController.tuneMultipleLedAttributes, ih, setLedDiodeState_getLedDiodePin]

/-! ## C4 -/

/-- C4: for every state with power on, every indicator pin in 0..7 and every
response of the link to the teardown request (rejected, or accepted with the
polling loop left on a confirmation or on the timeout),
`handlePowerButtonClick` returns a state in which the power, WiFi, pump,
vegetable, flower and strip booleans of `AppState` are all false, the five
indicator bits of the register are all 0 and the PWM duties are (0,0,0). -/
theorem power_off_clears_everything (s : System) (r : PowerClickReads)
    (hpow : s.appState.isPowerOn = true)
    (hpins : ∀ d, s.ledController.getLedDiodePin d < 8)
    (hloop : r.accepted = true →
      ∃ p ∈ r.polls, p.1 = WlStatus.WL_DISCONNECTED ∨ subU32 p.2 r.startMillis > 5000) :
    ∃ s', handlePowerButtonClick s r = some s'
      ∧ s'.appState.isPowerOn = false
      ∧ s'.appState.isWiFiLedDiodeOn = false
      ∧ s'.appState.isPumpLedDiodeOn = false
      ∧ s'.appState.isVegetableLedDiodeOn = false
      ∧ s'.appState.isFlowerLedDiodeOn = false
      ∧ s'.appState.isLedStripOn = false
      ∧ (∀ d, s'.diodeBit d = false)
      ∧ s'.duties = (0, 0, 0) := by
  have hd : ∃ w, s.wifiManager.disconnect r.accepted r.startMillis r.polls = some w := by
    unfold WiFiManager.disconnect
    cases hacc : r.accepted with
    | false => exact ⟨_, rfl⟩
    | true =>
      have := pollLoopExits_of_mem r.startMillis r.polls (hloop hacc)
      simp [this]
  obtain ⟨w, hw⟩ := hd
  simp only [AppState.isPowerOn] at hpow
  have heq : handlePowerButtonClick s r = some
      { s with
        appState := (((((s.appState.setPowerState false).setWiFiLedDiodeState
          false).setPumpLedDiodeState false).setVegetableLedDiodeState
          false).setFlowerLedDiodeState false).setLedStripState false,
        wifiManager := w,
        ledController := (s.ledController.tuneMultipleLedAttributes
          [(DiodeType.Power, false), (DiodeType.WiFi, false), (DiodeType.Pump, false),
           (DiodeType.Vegetable, false), (DiodeType.Flower, false)]).setLedStripMode
          STRIP_OFF } := by
    simp [handlePowerButtonClick, AppState.isPowerOn, hpow, hw]
  refine ⟨_, heq, rfl, rfl, rfl, rfl, rfl, rfl, ?_, ?_⟩
  · intro d
    simp only [System.diodeBit, setLedStripMode_shiftRegister, setLedStripMode_getLedDiodePin,
      tune_getLedDiodePin]
    exact tune_all_off_bits s.ledController hpins d
  · simp only [System.duties, setLedStripMode_ledc_off]

/-- Instance of C4: power-off from the demo system with Vegetable on, the
teardown accepted and confirmed at the second poll. -/
theorem power_off_clears_everything_witness :
    (demoVegetableOn.appState.isPowerOn = true
      ∧ (∀ d, demoVegetableOn.ledController.getLedDiodePin d < 8)
      ∧ (demoReads.accepted = true →
          ∃ p ∈ demoReads.polls,
            p.1 = WlStatus.WL_DISCONNECTED ∨ subU32 p.2 demoReads.startMillis > 5000))
    ∧ ∃ s', handlePowerButtonClick demoVegetableOn demoReads = some s'
      ∧ s'.appState.isPowerOn = false
      ∧ s'.appState.isWiFiLedDiodeOn = false
      ∧ s'.appState.isPumpLedDiodeOn = false
      ∧ s'.appState.isVegetableLedDiodeOn = false
      ∧ s'.appState.isFlowerLedDiodeOn = false
      ∧ s'.appState.isLedStripOn = false
      ∧ (∀ d, s'.diodeBit d = false)
      ∧ s'.duties = (0, 0, 0) :=
  ⟨⟨by decide, fun d => by cases d <;> decide, fun _ => by decide⟩,
   power_off_clears_everything demoVegetableOn demoReads (by decide)
     (fun d => by cases d <;> decide) (fun _ => by decide)⟩

/-! ## C5 -/

/-- C5: on every powered-on state (Vegetable and Flower pins distinct and in
0..7), a click of X in Vegetable, Flower with Y the other one gives: if X was
off in `AppState`, then X on, Y off in `AppState` and in the register bits,
duties (255,0,0) for Vegetable or (0,255,0) for Flower, strip flag true; if X
was on, then X and Y off in `AppState`, the bit of X 0 (and the bit of Y 0
when Y was on in `AppState` or its bit was 0 before), duties (0,0,0), strip
flag false. From a powered-on state with both off, the clicks Vegetable,
Flower, Flower give in turn (Vegetable on, mode 0), (Flower on, Vegetable
off, mode 1), (Flower off, strip off). -/
theorem grow_click_postcondition (s : System) (hpow : s.appState.isPowerOn = true)
    (hv : s.ledController.getLedDiodePin DiodeType.Vegetable < 8)
    (hf : s.ledController.getLedDiodePin DiodeType.Flower < 8)
    (hne : s.ledController.getLedDiodePin DiodeType.Vegetable
      ≠ s.ledController.getLedDiodePin DiodeType.Flower) :
    (s.appState.isVegetableLedDiodeOn = false →
        (handleVegetableButtonClick s).appState.isVegetableLedDiodeOn = true
        ∧ (handleVegetableButtonClick s).appState.isFlowerLedDiodeOn = false
        ∧ (handleVegetableButtonClick s).diodeBit DiodeType.Vegetable = true
        ∧ (handleVegetableButtonClick s).diodeBit DiodeType.Flower = false
        ∧ (handleVegetableButtonClick s).duties = (255, 0, 0)
        ∧ (handleVegetableButtonClick s).appState.isLedStripOn = true)
    ∧ (s.appState.isVegetableLedDiodeOn = true →
        (handleVegetableButtonClick s).appState.isVegetableLedDiodeOn = false
        ∧ (handleVegetableButtonClick s).appState.isFlowerLedDiodeOn = false
        ∧ (handleVegetableButtonClick s).diodeBit DiodeType.Vegetable = false
        ∧ (s.appState.isFlowerLedDiodeOn = true ∨ s.diodeBit DiodeType.Flower = false →
            (handleVegetableButtonClick s).diodeBit DiodeType.Flower = false)
        ∧ (handleVegetableButtonClick s).duties = (0, 0, 0)
        ∧ (handleVegetableButtonClick s).appState.isLedStripOn = false)
    ∧ (s.appState.isFlowerLedDiodeOn = false →
        (handleFlowerButtonClick s).appState.isFlowerLedDiodeOn = true
        ∧ (handleFlowerButtonClick s).appState.isVegetableLedDiodeOn = false
        ∧ (handleFlowerButtonClick s).diodeBit DiodeType.Flower = true
        ∧ (handleFlowerButtonClick s).diodeBit DiodeType.Vegetable = false
        ∧ (handleFlowerButtonClick s).duties = (0, 255, 0)
        ∧ (handleFlowerButtonClick s).appState.isLedStripOn = true)
    ∧ (s.appState.isFlowerLedDiodeOn = true →
        (handleFlowerButtonClick s).appState.isFlowerLedDiodeOn = false
        ∧ (handleFlowerButtonClick s).appState.isVegetableLedDiodeOn = false
        ∧ (handleFlowerButtonClick s).diodeBit DiodeType.Flower = false
        ∧ (s.appState.isVegetableLedDiodeOn = true ∨ s.diodeBit DiodeType.Vegetable = false →
            (handleFlowerButtonClick s).diodeBit DiodeType.Vegetable = false)
        ∧ (handleFlowerButtonClick s).duties = (0, 0, 0)
        ∧ (handleFlowerButtonClick s).appState.isLedStripOn = false)
    ∧ (s.appState.isVegetableLedDiodeOn = false → s.appState.isFlowerLedDiodeOn = false →
        ((handleGrowClicks s [GrowClick.vegetable]).appState.isVegetableLedDiodeOn = true
          ∧ (handleGrowClicks s [GrowClick.vegetable]).duties = (255, 0, 0))
        ∧ ((handleGrowClicks s [GrowClick.vegetable, GrowClick.flower]).appState.isFlowerLedDiodeOn
              = true
          ∧ (handleGrowClicks s [GrowClick.vegetable, GrowClick.flower]).appState.isVegetableLedDiodeOn
              = false
          ∧ (handleGrowClicks s [GrowClick.vegetable, GrowClick.flower]).duties = (0, 255, 0))
        ∧ ((handleGrowClicks s
              [GrowClick.vegetable, GrowClick.flower, GrowClick.flower]).appState.isFlowerLedDiodeOn
              = false
          ∧ (handleGrowClicks s
              [GrowClick.vegetable, GrowClick.flower, GrowClick.flower]).appState.isLedStripOn
              = false
          ∧ (handleGrowClicks s
              [GrowClick.vegetable, GrowClick.flower, GrowClick.flower]).duties = (0, 0, 0))) := by
  obtain ⟨hv1, hv2, hv3, hv4, hv5, hv6⟩ := handleVegetableButtonClick_state s hpow
  obtain ⟨hvb1, hvb2⟩ := handleVegetableButtonClick_bits s hpow hv hf hne
  obtain ⟨hf1, hf2, hf3, hf4, hf5, hf6⟩ := handleFlowerButtonClick_state s hpow
  obtain ⟨hfb1, hfb2⟩ := handleFlowerButtonClick_bits s hpow hv hf hne
  refine ⟨fun h => ?_, fun h => ?_, fun h => ?_, fun h => ?_, fun hV hF => ?_⟩
  · simp [hv3, hv4, hv5, hv6, hvb1, hvb2, h]
  · refine ⟨by simp [hv3, h], hv4, by simp [hvb1, h], fun hy => ?_, by simp [hv6, h],
      by simp [hv5, h]⟩
    rw [hvb2, h]
    rcases hy with hy | hy <;> simp [hy]
  · simp [hf3, hf4, hf5, hf6, hfb1, hfb2, h]
  · refine ⟨by simp [hf3, h], hf4, by simp [hfb1, h], fun hy => ?_, by simp [hf6, h],
      by simp [hf5, h]⟩
    rw [hfb2, h]
    rcases hy with hy | hy <;> simp [hy]
  · -- the three-click scenario
    have e1 : handleGrowClicks s [GrowClick.vegetable] = handleVegetableButtonClick s := rfl
    have e2 : handleGrowClicks s [GrowClick.vegetable, GrowClick.flower]
        = handleFlowerButtonClick (handleVegetableButtonClick s) := rfl
    have e3 : handleGrowClicks s [GrowClick.vegetable, GrowClick.flower, GrowClick.flower]
        = handleFlowerButtonClick (handleFlowerButtonClick (handleVegetableButtonClick s)) :=
      rfl
    obtain ⟨g1, _, g3, g4, _, g6⟩ :=
      handleFlowerButtonClick_state (handleVegetableButtonClick s) hv1
    obtain ⟨_, _, k3, _, k5, k6⟩ :=
      handleFlowerButtonClick_state (handleFlowerButtonClick (handleVegetableButtonClick s)) g1
    rw [e1, e2, e3]
    refine ⟨⟨?_, ?_⟩, ⟨?_, ?_, ?_⟩, ⟨?_, ?_, ?_⟩⟩
    · simp [hv3, hV]
    · simp [hv6, hV]
    · simp [g3, hv4]
    · exact g4
    · simp [g6, hv4]
    · simp [k3, g3, hv4]
    · simp [k5, g3, hv4]
    · simp [k6, g3, hv4]

/-- Instance of C5: the demo system after power-on, both growth indicators
off. -/
theorem grow_click_postcondition_witness :
    (demoPoweredOn.appState.isPowerOn = true
      ∧ demoPoweredOn.ledController.getLedDiodePin DiodeType.Vegetable < 8
      ∧ demoPoweredOn.ledController.getLedDiodePin DiodeType.Flower < 8
      ∧ demoPoweredOn.ledController.getLedDiodePin DiodeType.Vegetable
          ≠ demoPoweredOn.ledController.getLedDiodePin DiodeType.Flower
      ∧ demoPoweredOn.appState.isVegetableLedDiodeOn = false)
    ∧ (handleVegetableButtonClick demoPoweredOn).appState.isVegetableLedDiodeOn = true
    ∧ (handleVegetableButtonClick demoPoweredOn).appState.isFlowerLedDiodeOn = false
    ∧ (handleVegetableButtonClick demoPoweredOn).diodeBit DiodeType.Vegetable = true
    ∧ (handleVegetableButtonClick demoPoweredOn).diodeBit DiodeType.Flower = false
    ∧ (handleVegetableButtonClick demoPoweredOn).duties = (255, 0, 0)
    ∧ (handleVegetableButtonClick demoPoweredOn).appState.isLedStripOn = true :=
  ⟨⟨by decide, by decide, by decide, by decide, by decide⟩,
   (grow_click_postcondition demoPoweredOn (by decide) (by decide) (by decide)
      (by decide)).1 (by decide)⟩

/-! ## Shared lemmas on power-on -/

theorem setup_getLedDiodePin (s : System) (d : DiodeType) :
    (setup s).ledController.getLedDiodePin d = s.ledController.getLedDiodePin d := by
  simp only [setup, setLedStripMode_getLedDiodePin, tune_getLedDiodePin]

/-- Switching Power and WiFi on sets their two register bits. -/
theorem tune_power_wifi_on_bits (lc : LEDController)
    (hP : lc.getLedDiodePin DiodeType.Power < 8)
    (hW : lc.getLedDiodePin DiodeType.WiFi < 8) :
    (lc.tuneMultipleLedAttributes
        [(DiodeType.Power, true), (DiodeType.WiFi, true)]).shiftRegister.getPinState
        (lc.getLedDiodePin DiodeType.Power) = true
    ∧ (lc.tuneMultipleLedAttributes
        [(DiodeType.Power, true), (DiodeType.WiFi, true)]).shiftRegister.getPinState
        (lc.getLedDiodePin DiodeType.WiFi) = true := by
  constructor <;>
    simp [LEDController.tuneMultipleLedAttributes, setLedDiodeState_getPinState,
      setLedDiodeState_getLedDiodePin, hP, hW]

/-! ## C6 -/

/-- C6: from the state left by `setup()` (any pin assignment with the Power
and WiFi indicator pins in 0..7), with the link not associated at both status
reads of the call, one `handlePowerButtonClick` returns a state with
`isPowerOn()` true, the Power and WiFi register bits 1, exactly one
`WiFi.begin` issued, `connecting` true and `connected` false. -/
theorem power_on_from_setup (c : Config) (r : PowerClickReads)
    (hP : c.POWER_DIODE_PIN < 8) (hW : c.WIFI_DIODE_PIN < 8)
    (hg : r.guardStatus ≠ WlStatus.WL_CONNECTED)
    (hc : r.connectStatus ≠ WlStatus.WL_CONNECTED) :
    (setup (System.boot c)).wifiManager.beginCalls = 0
    ∧ ∃ s', handlePowerButtonClick (setup (System.boot c)) r = some s'
      ∧ s'.appState.isPowerOn = true
      ∧ s'.diodeBit DiodeType.Power = true
      ∧ s'.diodeBit DiodeType.WiFi = true
      ∧ s'.wifiManager.beginCalls = 1
      ∧ s'.wifiManager.isConnecting = true
      ∧ s'.wifiManager.connected = false := by
  have hP' : c.POWER_DIODE_PIN % 256 = c.POWER_DIODE_PIN := Nat.mod_eq_of_lt (by omega)
  have hW' : c.WIFI_DIODE_PIN % 256 = c.WIFI_DIODE_PIN := Nat.mod_eq_of_lt (by omega)
  refine ⟨rfl, ?_⟩
  have heq : handlePowerButtonClick (setup (System.boot c)) r = some
      { setup (System.boot c) with
        appState := (setup (System.boot c)).appState.setPowerState true,
        wifiManager :=
          ((setup (System.boot c)).wifiManager.isConnected r.guardStatus).2.connect
            r.connectStatus r.connectNow,
        ledController := (setup (System.boot c)).ledController.tuneMultipleLedAttributes
          [(DiodeType.Power, true), (DiodeType.WiFi, true)] } := by
    simp [handlePowerButtonClick, setup, System.boot, AppState.isPowerOn, AppState.new,
      AppState.setPowerState, AppState.setWiFiLedDiodeState, AppState.setPumpLedDiodeState,
      AppState.setVegetableLedDiodeState, AppState.setFlowerLedDiodeState,
      AppState.setLedStripState, WiFiManager.new, WiFiManager.isConnecting,
      WiFiManager.isConnected, hg]
  have hpinP : (setup (System.boot c)).ledController.getLedDiodePin DiodeType.Power < 8 := by
    rw [setup_getLedDiodePin]
    simp only [System.boot, LEDController.new, LEDController.getLedDiodePin, hP']
    exact hP
  have hpinW : (setup (System.boot c)).ledController.getLedDiodePin DiodeType.WiFi < 8 := by
    rw [setup_getLedDiodePin]
    simp only [System.boot, LEDController.new, LEDController.getLedDiodePin, hW']
    exact hW
  obtain ⟨hbP, hbW⟩ := tune_power_wifi_on_bits _ hpinP hpinW
  refine ⟨_, heq, rfl, ?_, ?_, ?_, ?_, ?_⟩
  · simpa only [System.diodeBit, tune_getLedDiodePin] using hbP
  · simpa only [System.diodeBit, tune_getLedDiodePin] using hbW
  · simp [setup, System.boot, WiFiManager.new, WiFiManager.isConnected, WiFiManager.connect,
      WiFiManager.isConnecting, hc]
  · simp [setup, System.boot, WiFiManager.new, WiFiManager.isConnected, WiFiManager.connect,
      WiFiManager.isConnecting, hc]
  · simp [setup, System.boot, WiFiManager.new, WiFiManager.isConnected, WiFiManager.connect,
      WiFiManager.isConnecting, hc]

/-- Instance of C6: the demo configuration with the link reporting
`WL_DISCONNECTED`. -/
theorem power_on_from_setup_witness :
    (demoConfig.POWER_DIODE_PIN < 8 ∧ demoConfig.WIFI_DIODE_PIN < 8
      ∧ demoReads.guardStatus ≠ WlStatus.WL_CONNECTED
      ∧ demoReads.connectStatus ≠ WlStatus.WL_CONNECTED)
    ∧ (setup (System.boot demoConfig)).wifiManager.beginCalls = 0
    ∧ ∃ s', handlePowerButtonClick (setup (System.boot demoConfig)) demoReads = some s'
      ∧ s'.appState.isPowerOn = true
      ∧ s'.diodeBit DiodeType.Power = true
      ∧ s'.diodeBit DiodeType.WiFi = true
      ∧ s'.wifiManager.beginCalls = 1
      ∧ s'.wifiManager.isConnecting = true
      ∧ s'.wifiManager.connected = false :=
  ⟨⟨by decide, by decide, by decide, by decide⟩,
   power_on_from_setup demoConfig demoReads (by decide) (by decide) (by decide) (by decide)⟩

/-! ## Shared lemmas on the debounced input -/

/-- One `update()` call whose two `millis()` reads are at most 80 ms apart
leaves the stored level as it was. -/
theorem update_lastButtonState (b : ButtonManager) (c : Bool) (t1 t2 : Nat)
    (ht : subU32 t2 (t1 % 2 ^ 32) ≤ 80) :
    (b.update c t1 t2).lastButtonState = b.lastButtonState := by
  unfold ButtonManager.update
  by_cases hc : c = b.lastButtonState
  · simp only [hc, bne_self_eq_false, Bool.false_eq_true, if_false]
    split <;> rfl
  · have hne : (c != b.lastButtonState) = true := by simpa using hc
    simp only [hne, if_true, ButtonManager.debounceDelay]
    rw [if_neg (by omega)]

/-- A run of `update()` calls, each with its two `millis()` reads at most
80 ms apart, leaves the stored level as it was, whatever the raw levels. -/
theorem updateRun_lastButtonState (b : ButtonManager) (run : List (Bool × Nat × Nat))
    (ht : ∀ x ∈ run, subU32 x.2.2 (x.2.1 % 2 ^ 32) ≤ 80) :
    (b.updateRun run).lastButtonState = b.lastButtonState := by
  induction run generalizing b with
  | nil => rfl
  | cons x xs ih =>
    obtain ⟨c, t1, t2⟩ := x
    simp only [ButtonManager.updateRun]
    rw [ih _ (fun y hy => ht y (List.mem_cons_of_mem _ hy))]
    exact update_lastButtonState b c t1 t2 (ht (c, t1, t2) (List.mem_cons_self _ _))

/-! ## C7 -/

/-- C7 at a concrete run: a fresh button (stored level HIGH) whose raw level
is LOW at every `update()` call, calls at 0, 10, ..., 100 ms and one more at
200 ms. The stored level is still HIGH after the call at 80 ms, after the
call at 100 ms and after the call at 200 ms, and every call has set
`lastDebounceTime` to its own time. -/
theorem update_run_does_not_commit :
    ((ButtonManager.new 32).updateRun
        [(LOW, 0, 0), (LOW, 10, 10), (LOW, 20, 20), (LOW, 30, 30), (LOW, 40, 40),
         (LOW, 50, 50), (LOW, 60, 60), (LOW, 70, 70), (LOW, 80, 80)]).lastButtonState = HIGH
    ∧ ((ButtonManager.new 32).updateRun
        [(LOW, 0, 0), (LOW, 10, 10), (LOW, 20, 20), (LOW, 30, 30), (LOW, 40, 40),
         (LOW, 50, 50), (LOW, 60, 60), (LOW, 70, 70), (LOW, 80, 80), (LOW, 90, 90),
         (LOW, 100, 100)]).lastButtonState = HIGH
    ∧ ((ButtonManager.new 32).updateRun
        [(LOW, 0, 0), (LOW, 10, 10), (LOW, 20, 20), (LOW, 30, 30), (LOW, 40, 40),
         (LOW, 50, 50), (LOW, 60, 60), (LOW, 70, 70), (LOW, 80, 80), (LOW, 90, 90),
         (LOW, 100, 100), (LOW, 200, 200)]) =
        { pin := 32, lastButtonState := HIGH, lastDebounceTime := 200 } := by
  decide

/-! ## C8 -/

/-- C8: for every stored level and sampled raw level `c`, `isClicked()`
returns true exactly when `c` is LOW and the stored level is HIGH, and stores
`c`; of two consecutive calls that both sample LOW the second returns false;
a freshly constructed button reports a click on its first LOW sample. -/
theorem isClicked_edge_triggered (b : ButtonManager) (c : Bool) (pin : Nat) :
    ((b.isClicked c).1 = true ↔ (c = LOW ∧ b.lastButtonState = HIGH))
    ∧ (b.isClicked c).2.lastButtonState = c
    ∧ ((b.isClicked LOW).2.isClicked LOW).1 = false
    ∧ ¬ ((b.isClicked LOW).1 = true ∧ ((b.isClicked LOW).2.isClicked LOW).1 = true)
    ∧ (ButtonManager.new pin).lastButtonState = HIGH
    ∧ ((ButtonManager.new pin).isClicked LOW).1 = true := by
  refine ⟨?_, rfl, ?_, ?_, rfl, rfl⟩
  · cases c <;> cases h : b.lastButtonState <;> simp [ButtonManager.isClicked, h]
  · simp [ButtonManager.isClicked]
  · simp [ButtonManager.isClicked]

/-! ## C9 -/

/-- C9 fails as stated: with `connecting` set and the teardown request
rejected (`WiFi.disconnect()` returns false), `disconnect()` returns with
`connecting` still set. -/
theorem disconnect_rejected_keeps_flags :
    ∃ w', ({ WiFiManager.new with connecting := true }).disconnect false 0 [] = some w'
      ∧ ¬ (w'.connecting = false ∧ w'.connected = false) :=
  ⟨_, rfl, by decide⟩

/-- C9 as amended: for every prior value of the flags, when the teardown
request is accepted and the polling loop is left (disconnection confirmed, or
more than 5000 ms elapsed), `disconnect()` returns with both flags false and
the radio switched off once; when the request is rejected, `disconnect()`
returns with both flags unchanged. -/
theorem disconnect_accepted_ends_idle (w : WiFiManager) (accepted : Bool)
    (startMillis : Nat) (polls : List (WlStatus × Nat))
    (hloop : accepted = true →
      ∃ p ∈ polls, p.1 = WlStatus.WL_DISCONNECTED ∨ subU32 p.2 startMillis > 5000) :
    ∃ w', w.disconnect accepted startMillis polls = some w'
      ∧ (accepted = true →
          w'.connecting = false ∧ w'.connected = false
          ∧ w'.modeOffCalls = w.modeOffCalls + 1)
      ∧ (accepted = false →
          w'.connecting = w.connecting ∧ w'.connected = w.connected) := by
  cases accepted with
  | false => exact ⟨_, rfl, by simp, fun _ => ⟨rfl, rfl⟩⟩
  | true =>
    have h := pollLoopExits_of_mem startMillis polls (hloop rfl)
    refine ⟨{ w with disconnectCalls := w.disconnectCalls + 1,
                     modeOffCalls := w.modeOffCalls + 1, connected := false,
                     connecting := false }, ?_, fun _ => ⟨rfl, rfl, rfl⟩, by simp⟩
    simp [WiFiManager.disconnect, h]

/-- Instance of C9 as amended: both flags set, the request accepted, the
link never confirming and the loop left on the timeout at the third poll. -/
theorem disconnect_accepted_ends_idle_witness :
    (true = true →
      ∃ p ∈ [(WlStatus.WL_CONNECTED, 1000), (WlStatus.WL_CONNECTED, 4000),
              (WlStatus.WL_CONNECTED, 6001)],
        p.1 = WlStatus.WL_DISCONNECTED ∨ subU32 p.2 1000 > 5000)
    ∧ ∃ w', ({ WiFiManager.new with connecting := true, connected := true }).disconnect true
          1000 [(WlStatus.WL_CONNECTED, 1000), (WlStatus.WL_CONNECTED, 4000),
                (WlStatus.WL_CONNECTED, 6001)] = some w'
      ∧ w'.connecting = false ∧ w'.connected = false ∧ w'.modeOffCalls = 1 :=
  ⟨fun _ => by decide,
   (disconnect_accepted_ends_idle { WiFiManager.new with connecting := true, connected := true }
      true 1000 [(WlStatus.WL_CONNECTED, 1000), (WlStatus.WL_CONNECTED, 4000),
                 (WlStatus.WL_CONNECTED, 6001)] (fun _ => by decide)).imp
     fun _ h => ⟨h.1, (h.2.1 rfl).1, (h.2.1 rfl).2.1, (h.2.1 rfl).2.2⟩⟩

/-! ## C10 -/

/-- C10 at a concrete state: `connecting` set, the link reporting
`WL_DISCONNECTED`, `lastAttemptTime` 0 and `currentTime` 6000, so that more
than 5000 ms have elapsed. `handleConnectionResult()` issues no association
request and leaves `lastAttemptTime` at 0; it only adds the 250 ms delay. -/
theorem retry_branch_never_taken :
    subU32 6000 ({ WiFiManager.new with connecting := true }).lastAttemptTime > 5000
    ∧ ({ WiFiManager.new with connecting := true }).handleConnectionResult 6000
        WlStatus.WL_DISCONNECTED WlStatus.WL_DISCONNECTED 6000 WlStatus.WL_DISCONNECTED
      = { WiFiManager.new with connecting := true, delayed := 250 }
    ∧ (({ WiFiManager.new with connecting := true }).handleConnectionResult 6000
        WlStatus.WL_DISCONNECTED WlStatus.WL_DISCONNECTED 6000
        WlStatus.WL_DISCONNECTED).beginCalls = 0
    ∧ (({ WiFiManager.new with connecting := true }).handleConnectionResult 6000
        WlStatus.WL_DISCONNECTED WlStatus.WL_DISCONNECTED 6000
        WlStatus.WL_DISCONNECTED).lastAttemptTime = 0 := by
  decide

/-! ## C11 -/

/-- C11: with one link status `status` at every read of the call,
`handleConnectionResult()` maps the flags as follows. Connecting and
associated: `connected` true, `connecting` false, no `WiFi.begin`. Not
connecting, connected, not associated: `connected` false, `connecting` true,
exactly one `WiFi.begin`. Not connecting, not connected, not associated:
`connecting` true, exactly one `WiFi.begin`. Not connecting, connected,
associated: flags unchanged, no `WiFi.begin`. -/
theorem handleConnectionResult_transitions (w : WiFiManager) (currentTime connectNow : Nat)
    (status : WlStatus) :
    (w.connecting = true → status = WlStatus.WL_CONNECTED →
      (w.handleConnectionResult currentTime status status connectNow status).connected = true
      ∧ (w.handleConnectionResult currentTime status status connectNow status).connecting
          = false
      ∧ (w.handleConnectionResult currentTime status status connectNow status).beginCalls
          = w.beginCalls)
    ∧ (w.connecting = false → w.connected = true → status ≠ WlStatus.WL_CONNECTED →
      (w.handleConnectionResult currentTime status status connectNow status).connected = false
      ∧ (w.handleConnectionResult currentTime status status connectNow status).connecting
          = true
      ∧ (w.handleConnectionResult currentTime status status connectNow status).beginCalls
          = w.beginCalls + 1)
    ∧ (w.connecting = false → w.connected = false → status ≠ WlStatus.WL_CONNECTED →
      (w.handleConnectionResult currentTime status status connectNow status).connecting = true
      ∧ (w.handleConnectionResult currentTime status status connectNow status).connected
          = false
      ∧ (w.handleConnectionResult currentTime status status connectNow status).beginCalls
          = w.beginCalls + 1)
    ∧ (w.connecting = false → w.connected = true → status = WlStatus.WL_CONNECTED →
      (w.handleConnectionResult currentTime status status connectNow status).connecting
          = false
      ∧ (w.handleConnectionResult currentTime status status connectNow status).connected = true
      ∧ (w.handleConnectionResult currentTime status status connectNow status).beginCalls
          = w.beginCalls) := by
  refine ⟨fun h1 h2 => ?_, fun h1 h2 h3 => ?_, fun h1 h2 h3 => ?_, fun h1 h2 h3 => ?_⟩
  · simp [WiFiManager.handleConnectionResult, h1, h2]
    split <;> simp_all
  · simp [WiFiManager.handleConnectionResult, WiFiManager.connect, WiFiManager.isConnected,
      WiFiManager.isConnecting, h1, h2, h3]
  · simp [WiFiManager.handleConnectionResult, WiFiManager.connect, WiFiManager.isConnected,
      WiFiManager.isConnecting, h1, h2, h3]
  · simp [WiFiManager.handleConnectionResult, h1, h2, h3]

/-- Instance of C11: the four transitions at concrete manager states. -/
theorem handleConnectionResult_transitions_witness :
    (({ WiFiManager.new with connecting := true }).handleConnectionResult 100
        WlStatus.WL_CONNECTED WlStatus.WL_CONNECTED 100 WlStatus.WL_CONNECTED).connected = true
    ∧ (({ WiFiManager.new with connected := true }).handleConnectionResult 100
        WlStatus.WL_CONNECTION_LOST WlStatus.WL_CONNECTION_LOST 100
        WlStatus.WL_CONNECTION_LOST).beginCalls = 0 + 1
    ∧ ((WiFiManager.new).handleConnectionResult 100
        WlStatus.WL_DISCONNECTED WlStatus.WL_DISCONNECTED 100
        WlStatus.WL_DISCONNECTED).connecting = true
    ∧ (({ WiFiManager.new with connected := true }).handleConnectionResult 100
        WlStatus.WL_CONNECTED WlStatus.WL_CONNECTED 100 WlStatus.WL_CONNECTED).beginCalls = 0 :=
  ⟨((handleConnectionResult_transitions { WiFiManager.new with connecting := true } 100 100
      WlStatus.WL_CONNECTED).1 rfl rfl).1,
   ((handleConnectionResult_transitions { WiFiManager.new with connected := true } 100 100
      WlStatus.WL_CONNECTION_LOST).2.1 rfl rfl (by decide)).2.2,
   ((handleConnectionResult_transitions WiFiManager.new 100 100
      WlStatus.WL_DISCONNECTED).2.2.1 rfl rfl (by decide)).1,
   ((handleConnectionResult_transitions { WiFiManager.new with connected := true } 100 100
      WlStatus.WL_CONNECTED).2.2.2 rfl rfl rfl).2.2⟩

/-! ## C12 -/

/-- C12 fails as stated: on the controller as constructed, after a toggle at
1000 ms a call at 1300 ms, 300 ms after that toggle, inverts the blink state
again, changes the WiFi bit and performs a write. -/
theorem blink_toggles_before_500ms :
    (demoSystem.ledController.blinkWiFiLedDiode 1 1000 1000).lastBlinkTime = 1000
    ∧ subU32 1300 (demoSystem.ledController.blinkWiFiLedDiode 1 1000 1000).lastBlinkTime < 500
    ∧ ((demoSystem.ledController.blinkWiFiLedDiode 1 1000 1000).blinkWiFiLedDiode 1 1300
        1300).blinkState
        ≠ (demoSystem.ledController.blinkWiFiLedDiode 1 1000 1000).blinkState
    ∧ ((demoSystem.ledController.blinkWiFiLedDiode 1 1000 1000).blinkWiFiLedDiode 1 1300
        1300).shiftRegister.registers
        ≠ (demoSystem.ledController.blinkWiFiLedDiode 1 1000 1000).shiftRegister.registers
    ∧ ((demoSystem.ledController.blinkWiFiLedDiode 1 1000 1000).blinkWiFiLedDiode 1 1300
        1300).shiftRegister.calls.length
        = (demoSystem.ledController.blinkWiFiLedDiode 1 1000 1000).shiftRegister.calls.length
          + 3 := by
  decide

/-- C12 as amended: the constructor sets `blinkInterval` to 200, and with that
value, for every count and every blink state, a call of `blinkWiFiLedDiode`
less than 200 ms after the previous toggle changes nothing (no write), and a
call at least 200 ms after it inverts the blink state, writes it to the WiFi
bit and records the time of the toggle. -/
theorem blink_half_period_200ms (lc : LEDController) (count : Int) (t1 t2 : Nat)
    (sr : ShiftRegister) (ledc : Ledc) (p1 p2 p3 p4 p5 : Nat)
    (hint : lc.blinkInterval = 200) :
    (LEDController.new sr ledc p1 p2 p3 p4 p5).blinkInterval = 200
    ∧ (lc.blinkWiFiLedDiode count t1 t2).blinkInterval = 200
    ∧ (subU32 t1 lc.lastBlinkTime < 200 → lc.blinkWiFiLedDiode count t1 t2 = lc)
    ∧ (200 ≤ subU32 t1 lc.lastBlinkTime →
        (lc.blinkWiFiLedDiode count t1 t2).blinkState = !lc.blinkState
        ∧ (lc.blinkWiFiLedDiode count t1 t2).shiftRegister
            = (lc.shiftRegister.setPinState lc.wifiLedDiodePin (!lc.blinkState)).write
        ∧ (lc.wifiLedDiodePin < 8 →
            (lc.blinkWiFiLedDiode count t1 t2).shiftRegister.getPinState lc.wifiLedDiodePin
              = !lc.blinkState)
        ∧ (lc.blinkWiFiLedDiode count t1 t2).lastBlinkTime = t2 % 2 ^ 32) := by
  refine ⟨rfl, ?_, fun h => ?_, fun h => ?_⟩
  · unfold LEDController.blinkWiFiLedDiode
    split <;> simp [hint]
  · unfold LEDController.blinkWiFiLedDiode
    rw [if_neg (by omega)]
  · unfold LEDController.blinkWiFiLedDiode
    rw [if_pos (by omega)]
    refine ⟨rfl, rfl, fun hp => ?_, rfl⟩
    simp only [getPinState_eq_testBit, write_registers]
    rw [setPinState_testBit _ _ _ _ hp hp]
    simp

/-- Instance of C12 as amended: the controller as constructed, toggled at
1000 ms; a call at 1100 ms changes nothing, a call at 1200 ms toggles. -/
theorem blink_half_period_200ms_witness :
    (demoSystem.ledController.blinkWiFiLedDiode 1 1000 1000).blinkInterval = 200
    ∧ (subU32 1100 (demoSystem.ledController.blinkWiFiLedDiode 1 1000 1000).lastBlinkTime < 200
        ∧ (demoSystem.ledController.blinkWiFiLedDiode 1 1000 1000).blinkWiFiLedDiode 1 1100 1100
            = demoSystem.ledController.blinkWiFiLedDiode 1 1000 1000)
    ∧ (200 ≤ subU32 1200 (demoSystem.ledController.blinkWiFiLedDiode 1 1000 1000).lastBlinkTime
        ∧ ((demoSystem.ledController.blinkWiFiLedDiode 1 1000 1000).blinkWiFiLedDiode 1 1200
            1200).blinkState
            = !(demoSystem.ledController.blinkWiFiLedDiode 1 1000 1000).blinkState) :=
  ⟨by decide,
   ⟨by decide,
    (blink_half_period_200ms (demoSystem.ledController.blinkWiFiLedDiode 1 1000 1000) 1 1100
      1100 (ShiftRegister.new 13 14 15) ⟨0, 0, 0⟩ 0 1 2 3 4 (by decide)).2.2.1 (by decide)⟩,
   ⟨by decide,
    ((blink_half_period_200ms (demoSystem.ledController.blinkWiFiLedDiode 1 1000 1000) 1 1200
      1200 (ShiftRegister.new 13 14 15) ⟨0, 0, 0⟩ 0 1 2 3 4 (by decide)).2.2.2
      (by decide)).1⟩⟩

/-! ## Shared lemmas on the WiFi indicator policy -/

theorem blinkWiFiLedDiode_with_counter (lc : LEDController) (k : Int) (count : Int)
    (t1 t2 : Nat) :
    ({ lc with wifiBlinkCounter := k }).blinkWiFiLedDiode count t1 t2
      = { lc.blinkWiFiLedDiode count t1 t2 with wifiBlinkCounter := k } := by
  unfold LEDController.blinkWiFiLedDiode
  split <;> rfl

theorem blinkRun_with_counter (lc : LEDController) (k : Int) (reads : List (Nat × Nat)) :
    ({ lc with wifiBlinkCounter := k }).blinkRun reads
      = { lc.blinkRun reads with wifiBlinkCounter := k } := by
  induction reads generalizing lc with
  | nil => rfl
  | cons x xs ih =>
    obtain ⟨t1, t2⟩ := x
    simp only [LEDController.blinkRun, blinkWiFiLedDiode_with_counter, ih]

theorem forceWiFiLowRun_wifiBlinkCounter (lc : LEDController) (n : Nat) :
    (lc.forceWiFiLowRun n).wifiBlinkCounter = lc.wifiBlinkCounter := by
  induction n generalizing lc with
  | zero => rfl
  | succ n ih => simp only [LEDController.forceWiFiLowRun, ih]

theorem forceWiFiLowRun_wifiLedDiodePin (lc : LEDController) (n : Nat) :
    (lc.forceWiFiLowRun n).wifiLedDiodePin = lc.wifiLedDiodePin := by
  induction n generalizing lc with
  | zero => rfl
  | succ n ih => simp only [LEDController.forceWiFiLowRun, ih]

/-- A run of not-connected calls whose counter has reached 3 only forces the
WiFi bit LOW. -/
theorem statusRun_saturated (lc : LEDController) (reads : List (Nat × Nat))
    (h : lc.wifiBlinkCounter = 3) :
    lc.updateWiFiLedDiodeStatusRun false reads = lc.forceWiFiLowRun reads.length := by
  induction reads generalizing lc with
  | nil => rfl
  | cons x xs ih =>
    obtain ⟨t1, t2⟩ := x
    simp only [LEDController.updateWiFiLedDiodeStatusRun, List.length_cons,
      LEDController.forceWiFiLowRun]
    have hstep : lc.updateWiFiLedDiodeStatus false t1 t2
        = { lc with
            shiftRegister := (lc.shiftRegister.setPinState lc.wifiLedDiodePin LOW).write,
            ledBlinkState := false } := by
      simp [LEDController.updateWiFiLedDiodeStatus, h]
    rw [hstep]
    exact ih _ h

/-- One not-connected call below the limit is one blink call and one more
counted attempt. -/
theorem status_step_blinks (lc : LEDController) (t1 t2 : Nat) (h : lc.wifiBlinkCounter < 3) :
    lc.updateWiFiLedDiodeStatus false t1 t2
      = { lc.blinkWiFiLedDiode 1 t1 t2 with wifiBlinkCounter := lc.wifiBlinkCounter + 1 } := by
  have hc : (lc.blinkWiFiLedDiode 1 t1 t2).wifiBlinkCounter = lc.wifiBlinkCounter := by
    unfold LEDController.blinkWiFiLedDiode
    split <;> rfl
  simp [LEDController.updateWiFiLedDiodeStatus, h, hc]

/-- A run of not-connected calls starting with `k` counted attempts, `k` at
most 3: blinks on the first `3 - k` calls, then only forces the bit LOW. -/
theorem statusRun_from (k : Nat) (hk : k ≤ 3) (lc : LEDController)
    (reads : List (Nat × Nat)) (h : lc.wifiBlinkCounter = (k : Int)) :
    lc.updateWiFiLedDiodeStatusRun false reads
      = LEDController.forceWiFiLowRun
          { lc.blinkRun (reads.take (3 - k)) with
              wifiBlinkCounter := ((min (k + reads.length) 3 : Nat) : Int) }
          (reads.length - (3 - k)) := by
  induction reads generalizing lc k with
  | nil =>
    simp only [LEDController.updateWiFiLedDiodeStatusRun, List.take_nil, List.length_nil,
      LEDController.blinkRun, Nat.add_zero, Nat.zero_sub, LEDController.forceWiFiLowRun]
    rw [Nat.min_eq_left hk, ← h]
  | cons x xs ih =>
    obtain ⟨t1, t2⟩ := x
    rcases Nat.lt_or_ge k 3 with hlt | hge
    · have hlt' : lc.wifiBlinkCounter < 3 := by rw [h]; exact_mod_cast hlt
      obtain ⟨m, hm⟩ : ∃ m, 3 - k = m + 1 := ⟨2 - k, by omega⟩
      have hm' : 3 - (k + 1) = m := by omega
      simp only [LEDController.updateWiFiLedDiodeStatusRun]
      rw [status_step_blinks lc t1 t2 hlt', ih (k + 1) (by omega) _ (by simp [h]), hm, hm']
      simp only [List.take_succ_cons, LEDController.blinkRun, List.length_cons,
        blinkRun_with_counter]
      have e1 : k + 1 + xs.length = k + (xs.length + 1) := by omega
      have e2 : xs.length + 1 - (m + 1) = xs.length - m := by omega
      rw [e1, e2]
    · have hk3 : k = 3 := by omega
      subst hk3
      rw [statusRun_saturated lc _ (by simpa using h)]
      simp only [Nat.sub_self, List.take_zero, LEDController.blinkRun, Nat.sub_zero]
      have e : min (3 + ((t1, t2) :: xs).length) 3 = 3 := by simp
      rw [e]
      congr 1
      cases lc
      simp_all

/-! ## Shared lemmas on the serialized byte -/

theorem setPinState_calls (sr : ShiftRegister) (pin : Nat) (state : Bool) :
    (sr.setPinState pin state).calls = sr.calls := by
  unfold ShiftRegister.setPinState
  split <;> rfl

theorem setPinState_transmitted (sr : ShiftRegister) (pin : Nat) (state : Bool) :
    (sr.setPinState pin state).transmitted = sr.transmitted := by
  simp only [ShiftRegister.transmitted, setPinState_calls]

theorem write_transmitted (sr : ShiftRegister) :
    sr.write.transmitted = sr.transmitted ++ [sr.registers] := by
  simp [ShiftRegister.transmitted, ShiftRegister.write, List.filterMap_append]

theorem write_inSync (sr : ShiftRegister) : sr.write.inSync := by
  simp [ShiftRegister.inSync, ShiftRegister.lastTransmitted, write_transmitted,
    write_registers]

theorem forceWiFiLowRun_succ (lc : LEDController) (n : Nat) :
    lc.forceWiFiLowRun (n + 1)
      = { lc.forceWiFiLowRun n with
          shiftRegister := ((lc.forceWiFiLowRun n).shiftRegister.setPinState
            (lc.forceWiFiLowRun n).wifiLedDiodePin LOW).write,
          ledBlinkState := false } := by
  induction n generalizing lc with
  | zero => rfl
  | succ n ih =>
    rw [LEDController.forceWiFiLowRun, ih]
    rfl

/-! ## C13 -/

/-- C13: a run of consecutive `updateWiFiLedDiodeStatus(false)` calls that
starts with the attempt counter at 0 is one `blinkWiFiLedDiode` call on each
of its first three calls and, on every later call, no blink but the WiFi bit
forced LOW and written; the counter is the number of calls capped at 3. A
call `updateWiFiLedDiodeStatus(true)` sets the WiFi bit HIGH, writes it and
resets the counter to 0, so the next not-connected run has the same shape. -/
theorem wifi_indicator_policy (lc : LEDController) (reads : List (Nat × Nat))
    (t1 t2 : Nat) :
    (lc.wifiBlinkCounter = 0 →
        lc.updateWiFiLedDiodeStatusRun false reads
          = LEDController.forceWiFiLowRun
              { lc.blinkRun (reads.take 3) with
                  wifiBlinkCounter := ((min reads.length 3 : Nat) : Int) }
              (reads.length - 3))
    ∧ (lc.wifiBlinkCounter = 0 →
        (lc.updateWiFiLedDiodeStatusRun false reads).wifiBlinkCounter
            = ((min reads.length 3 : Nat) : Int)
        ∧ (lc.updateWiFiLedDiodeStatusRun false reads).wifiBlinkCounter ≤ 3)
    ∧ (lc.wifiBlinkCounter = 0 → 3 < reads.length → lc.wifiLedDiodePin < 8 →
        (lc.updateWiFiLedDiodeStatusRun false reads).shiftRegister.getPinState
            lc.wifiLedDiodePin = LOW
        ∧ (lc.updateWiFiLedDiodeStatusRun false reads).shiftRegister.inSync)
    ∧ ((lc.updateWiFiLedDiodeStatus true t1 t2).wifiBlinkCounter = 0
        ∧ (lc.updateWiFiLedDiodeStatus true t1 t2).shiftRegister
            = (lc.shiftRegister.setPinState lc.wifiLedDiodePin HIGH).write
        ∧ (lc.wifiLedDiodePin < 8 →
            (lc.updateWiFiLedDiodeStatus true t1 t2).shiftRegister.getPinState
              lc.wifiLedDiodePin = HIGH))
    ∧ (lc.updateWiFiLedDiodeStatus true t1 t2).updateWiFiLedDiodeStatusRun false reads
        = LEDController.forceWiFiLowRun
            { (lc.updateWiFiLedDiodeStatus true t1 t2).blinkRun (reads.take 3) with
                wifiBlinkCounter := ((min reads.length 3 : Nat) : Int) }
            (reads.length - 3) := by
  have hrun : ∀ l : LEDController, l.wifiBlinkCounter = 0 →
      l.updateWiFiLedDiodeStatusRun false reads
        = LEDController.forceWiFiLowRun
            { l.blinkRun (reads.take 3) with
                wifiBlinkCounter := ((min reads.length 3 : Nat) : Int) }
            (reads.length - 3) := by
    intro l hl
    have := statusRun_from 0 (by omega) l reads (by simpa using hl)
    simpa using this
  have hpinRun : ∀ (l : LEDController) (rs : List (Nat × Nat)),
      (l.blinkRun rs).wifiLedDiodePin = l.wifiLedDiodePin := by
    intro l rs
    induction rs generalizing l with
    | nil => rfl
    | cons x xs ih =>
      obtain ⟨a, b⟩ := x
      simp only [LEDController.blinkRun]
      rw [ih]
      unfold LEDController.blinkWiFiLedDiode
      split <;> rfl
  refine ⟨hrun lc, fun h0 => ?_, fun h0 hlen hpin => ?_, ⟨rfl, rfl, fun hpin => ?_⟩,
    hrun _ rfl⟩
  · rw [hrun lc h0, forceWiFiLowRun_wifiBlinkCounter]
    refine ⟨rfl, ?_⟩
    show ((min reads.length 3 : Nat) : Int) ≤ 3
    exact_mod_cast Nat.min_le_right _ _
  · obtain ⟨m, hm⟩ : ∃ m, reads.length - 3 = m + 1 := ⟨reads.length - 4, by omega⟩
    rw [hrun lc h0, hm, forceWiFiLowRun_succ]
    refine ⟨?_, write_inSync _⟩
    simp only [getPinState_eq_testBit, write_registers, forceWiFiLowRun_wifiLedDiodePin,
      hpinRun]
    rw [setPinState_testBit _ _ _ _ hpin hpin]
    simp
  · simp only [LEDController.updateWiFiLedDiodeStatus, if_true, getPinState_eq_testBit,
      write_registers]
    rw [setPinState_testBit _ _ _ _ hpin hpin]
    simp

/-- Instance of C13: five not-connected calls on the controller as
constructed, at 1000, 1010, ..., 1040 ms. -/
theorem wifi_indicator_policy_witness :
    (demoSystem.ledController.wifiBlinkCounter = 0
      ∧ 3 < [(1000, 1000), (1010, 1010), (1020, 1020), (1030, 1030), (1040, 1040)].length
      ∧ demoSystem.ledController.wifiLedDiodePin < 8)
    ∧ (demoSystem.ledController.updateWiFiLedDiodeStatusRun false
        [(1000, 1000), (1010, 1010), (1020, 1020), (1030, 1030),
         (1040, 1040)]).wifiBlinkCounter = ((min 5 3 : Nat) : Int)
    ∧ (demoSystem.ledController.updateWiFiLedDiodeStatusRun false
        [(1000, 1000), (1010, 1010), (1020, 1020), (1030, 1030),
         (1040, 1040)]).shiftRegister.getPinState demoSystem.ledController.wifiLedDiodePin
        = LOW :=
  ⟨⟨by decide, by decide, by decide⟩,
   ((wifi_indicator_policy demoSystem.ledController
      [(1000, 1000), (1010, 1010), (1020, 1020), (1030, 1030), (1040, 1040)] 0 0).2.1
      (by decide)).1,
   ((wifi_indicator_policy demoSystem.ledController
      [(1000, 1000), (1010, 1010), (1020, 1020), (1030, 1030), (1040, 1040)] 0 0).2.2.1
      (by decide) (by decide) (by decide)).1⟩

/-! ## C14 -/

/-- C14 at a concrete run: after `setup()` and one power click with the link
down, the WiFi register bit is 1 while `isWiFiLedDiodeOn()` is false; after
one more click, on the pump button, the Pump register bit is 1 while
`isPumpLedDiodeOn()` is false. The Power, Vegetable and Flower booleans equal
their bits in both states. -/
theorem appState_does_not_mirror_wifi_and_pump :
    handleClicks (setup (System.boot demoConfig)) [Click.power demoReads] = some demoPoweredOn
    ∧ demoPoweredOn.diodeBit DiodeType.WiFi = true
    ∧ demoPoweredOn.appState.isWiFiLedDiodeOn = false
    ∧ handleClicks (setup (System.boot demoConfig)) [Click.power demoReads, Click.pump]
        = some (handlePumpButtonClick demoPoweredOn)
    ∧ (handlePumpButtonClick demoPoweredOn).diodeBit DiodeType.Pump = true
    ∧ (handlePumpButtonClick demoPoweredOn).appState.isPumpLedDiodeOn = false
    ∧ (∀ d, d = DiodeType.Power ∨ d = DiodeType.Vegetable ∨ d = DiodeType.Flower →
        demoPoweredOn.appState.getStateForLedDiode d = demoPoweredOn.diodeBit d
        ∧ (handlePumpButtonClick demoPoweredOn).appState.getStateForLedDiode d
            = (handlePumpButtonClick demoPoweredOn).diodeBit d) := by
  refine ⟨by decide, by decide, by decide, by decide, by decide, by decide, ?_⟩
  intro d hd
  rcases hd with rfl | rfl | rfl <;> decide

/-! ## Shared lemmas on the strip flag -/

theorem tune_ledc (lc : LEDController) (l : List (DiodeType × Bool)) :
    (lc.tuneMultipleLedAttributes l).ledc = lc.ledc := by
  induction l generalizing lc with
  | nil => rfl
  | cons x xs ih =>
    obtain ⟨e, b⟩ := x
    simp only [LEDController.tuneMultipleLedAttributes, ih]
    rfl

theorem setup_stripInv (s : System) : (setup s).StripInv := by
  refine ⟨rfl, ?_, fun _ => ⟨rfl, rfl⟩⟩
  simp [setup, System.duties, setLedStripMode_ledc_off, AppState.isLedStripOn,
    AppState.setLedStripState]

theorem handlePumpButtonClick_stripInv (s : System) (h : s.StripInv) :
    (handlePumpButtonClick s).StripInv := by
  unfold handlePumpButtonClick
  split
  · exact h
  · exact h

theorem handleVegetableButtonClick_stripInv (s : System) (h : s.StripInv) :
    (handleVegetableButtonClick s).StripInv := by
  cases hpow : s.appState.isPowerOn with
  | true =>
    obtain ⟨h1, _, h3, h4, h5, h6⟩ := handleVegetableButtonClick_state s hpow
    refine ⟨by rw [h5, h3, h4]; simp, ?_, fun hoff => by rw [h1] at hoff; cases hoff⟩
    rw [h6, h5]
    cases s.appState.isVegetableLedDiodeOn <;> simp
  | false =>
    have hV := (h.2.2 hpow).1
    have : handleVegetableButtonClick s = s := by
      simp only [AppState.isPowerOn] at hpow
      simp only [AppState.isVegetableLedDiodeOn] at hV
      simp [handleVegetableButtonClick, AppState.isPowerOn, AppState.isVegetableLedDiodeOn,
        hpow, hV]
    rw [this]
    exact h

theorem handleFlowerButtonClick_stripInv (s : System) (h : s.StripInv) :
    (handleFlowerButtonClick s).StripInv := by
  cases hpow : s.appState.isPowerOn with
  | true =>
    obtain ⟨h1, _, h3, h4, h5, h6⟩ := handleFlowerButtonClick_state s hpow
    refine ⟨by rw [h5, h3, h4]; simp, ?_, fun hoff => by rw [h1] at hoff; cases hoff⟩
    rw [h6, h5]
    cases s.appState.isFlowerLedDiodeOn <;> simp
  | false =>
    have hF := (h.2.2 hpow).2
    have : handleFlowerButtonClick s = s := by
      simp only [AppState.isPowerOn] at hpow
      simp only [AppState.isFlowerLedDiodeOn] at hF
      simp [handleFlowerButtonClick, AppState.isPowerOn, AppState.isFlowerLedDiodeOn,
        hpow, hF]
    rw [this]
    exact h

theorem handlePowerButtonClick_stripInv (s s1 : System) (r : PowerClickReads)
    (h : s.StripInv) (hs : handlePowerButtonClick s r = some s1) : s1.StripInv := by
  obtain ⟨hflag, hduty, hoff⟩ := h
  unfold handlePowerButtonClick at hs
  cases hpow : s.appState.isPowerOn with
  | false =>
    simp only [hpow, Bool.not_false, if_true] at hs
    split at hs
    · cases hs; exact ⟨hflag, hduty, hoff⟩
    · split at hs
      · cases hs
        obtain ⟨hV, hF⟩ := hoff hpow
        refine ⟨hflag, ?_, fun _ => ⟨hV, hF⟩⟩
        simpa only [System.duties, tune_ledc] using hduty
      · cases hs; exact ⟨hflag, hduty, hoff⟩
  | true =>
    simp only [hpow, Bool.not_true, Bool.false_eq_true, if_false] at hs
    split at hs
    · cases hs
    · cases hs
      refine ⟨rfl, ?_, fun _ => ⟨rfl, rfl⟩⟩
      simp [System.duties, setLedStripMode_ledc_off, AppState.isLedStripOn,
        AppState.setLedStripState]

theorem handleClicks_stripInv (s s1 : System) (clicks : List Click) (h : s.StripInv)
    (hs : handleClicks s clicks = some s1) : s1.StripInv := by
  induction clicks generalizing s with
  | nil =>
    simp only [handleClicks, Option.some.injEq] at hs
    subst hs; exact h
  | cons c cs ih =>
    simp only [handleClicks] at hs
    cases hc : c.handle s with
    | none => rw [hc] at hs; cases hs
    | some s2 =>
      rw [hc] at hs
      refine ih s2 ?_ hs
      cases c with
      | power r => exact handlePowerButtonClick_stripInv s s2 r h hc
      | pump =>
        simp only [Click.handle, Option.some.injEq] at hc
        subst hc; exact handlePumpButtonClick_stripInv s h
      | vegetable =>
        simp only [Click.handle, Option.some.injEq] at hc
        subst hc; exact handleVegetableButtonClick_stripInv s h
      | flower =>
        simp only [Click.handle, Option.some.injEq] at hc
        subst hc; exact handleFlowerButtonClick_stripInv s h

/-! ## C15 -/

/-- C15: in every state reached from `setup()` by a sequence of Power, Pump,
Vegetable and Flower click handlers (each having returned),
`isLedStripOn()` is true exactly when the PWM duty triple is not (0,0,0), and
exactly when one of the Vegetable and Flower booleans of `AppState` is
true. -/
theorem strip_flag_invariant (c : Config) (clicks : List Click) (s : System)
    (hreach : handleClicks (setup (System.boot c)) clicks = some s) :
    (s.appState.isLedStripOn = true ↔ s.duties ≠ (0, 0, 0))
    ∧ (s.appState.isLedStripOn = true ↔
        (s.appState.isVegetableLedDiodeOn = true ∨ s.appState.isFlowerLedDiodeOn = true)) := by
  obtain ⟨hflag, hduty, _⟩ :=
    handleClicks_stripInv _ s clicks (setup_stripInv (System.boot c)) hreach
  constructor
  · rw [Ne, hduty]; simp
  · rw [hflag]; simp

/-- Instance of C15: power on, Vegetable, Flower, then pump. -/
theorem strip_flag_invariant_witness :
    handleClicks (setup (System.boot demoConfig))
        [Click.power demoReads, Click.vegetable, Click.flower, Click.pump]
      = some (handlePumpButtonClick (handleFlowerButtonClick demoVegetableOn))
    ∧ ((handlePumpButtonClick (handleFlowerButtonClick demoVegetableOn)).appState.isLedStripOn
          = true ↔
        (handlePumpButtonClick (handleFlowerButtonClick demoVegetableOn)).duties ≠ (0, 0, 0))
    ∧ ((handlePumpButtonClick (handleFlowerButtonClick demoVegetableOn)).appState.isLedStripOn
          = true ↔
        ((handlePumpButtonClick
            (handleFlowerButtonClick demoVegetableOn)).appState.isVegetableLedDiodeOn = true
          ∨ (handlePumpButtonClick
            (handleFlowerButtonClick demoVegetableOn)).appState.isFlowerLedDiodeOn = true)) :=
  ⟨by decide,
   strip_flag_invariant demoConfig
     [Click.power demoReads, Click.vegetable, Click.flower, Click.pump]
     (handlePumpButtonClick (handleFlowerButtonClick demoVegetableOn)) (by decide)⟩

/-! ## C16 -/

/-- C16: `setLedStripMode(m)` sets the duties of channels (0,1,2) to
(255,0,0) for m = 0, (0,255,0) for m = 1 and (0,0,0) for m = 2; for every m
in 3..255 it changes nothing; applying it twice gives the same as applying
it once, and mode 2 twice gives (0,0,0) both times. -/
theorem setLedStripMode_table (lc : LEDController) (m : Nat) :
    (lc.setLedStripMode 0).ledc = ⟨255, 0, 0⟩
    ∧ (lc.setLedStripMode 1).ledc = ⟨0, 255, 0⟩
    ∧ (lc.setLedStripMode 2).ledc = ⟨0, 0, 0⟩
    ∧ (3 ≤ m → m ≤ 255 → lc.setLedStripMode m = lc)
    ∧ ((lc.setLedStripMode 2).setLedStripMode 2).ledc = ⟨0, 0, 0⟩
    ∧ (lc.setLedStripMode m).setLedStripMode m = lc.setLedStripMode m := by
  refine ⟨rfl, rfl, rfl, fun h3 h255 => ?_, rfl, ?_⟩
  · have hm : m % 256 = m := Nat.mod_eq_of_lt (by omega)
    unfold LEDController.setLedStripMode
    rw [hm]
    split
    · omega
    · omega
    · omega
    · rfl
  · unfold LEDController.setLedStripMode
    split <;> first | rfl | (rename_i h; simp [h])

/-- Instance of C16: mode 7 on the demo system with Vegetable on. -/
theorem setLedStripMode_table_witness :
    (3 ≤ 7 ∧ 7 ≤ 255)
    ∧ demoVegetableOn.ledController.setLedStripMode 7 = demoVegetableOn.ledController :=
  ⟨⟨by decide, by decide⟩,
   (setLedStripMode_table demoVegetableOn.ledController 7).2.2.2.1 (by decide) (by decide)⟩

/-! ## Shared lemmas on serialized operations -/

theorem keepsSync_refl (sr : ShiftRegister) : ShiftRegister.KeepsSync sr sr :=
  ⟨id, fun h => absurd rfl h⟩

theorem keepsSync_write (before sr : ShiftRegister) :
    ShiftRegister.KeepsSync before sr.write :=
  ⟨fun _ => write_inSync sr, fun _ => write_inSync sr⟩

theorem keepsSync_trans (a b c : ShiftRegister) (h1 : ShiftRegister.KeepsSync a b)
    (h2 : ShiftRegister.KeepsSync b c) : ShiftRegister.KeepsSync a c := by
  refine ⟨fun h => h2.1 (h1.1 h), fun h => ?_⟩
  by_cases hbc : c.registers = b.registers
  · exact h2.1 (h1.2 (by rw [← hbc]; exact h))
  · exact h2.2 hbc

theorem tune_keepsSync (lc : LEDController) (l : List (DiodeType × Bool)) :
    ShiftRegister.KeepsSync lc.shiftRegister (lc.tuneMultipleLedAttributes l).shiftRegister := by
  induction l generalizing lc with
  | nil => exact keepsSync_refl _
  | cons x xs ih =>
    obtain ⟨d, b⟩ := x
    exact keepsSync_trans _ _ _ (keepsSync_write _ _) (ih (lc.setLedDiodeState d b))

theorem blink_keepsSync (lc : LEDController) (count : Int) (t1 t2 : Nat) :
    ShiftRegister.KeepsSync lc.shiftRegister (lc.blinkWiFiLedDiode count t1 t2).shiftRegister := by
  unfold LEDController.blinkWiFiLedDiode
  split
  · exact keepsSync_write _ _
  · exact keepsSync_refl _

/-! ## C17 -/

/-- C17: each operation of the indicator driver (`setLedDiodeState`,
`toggleLedDiodeState`, `tuneMultipleLedAttributes`, `blinkWiFiLedDiode`,
`updateWiFiLedDiodeStatus`) and `PumpController::setMotorPumpState` preserves
"the in-memory byte equals the last byte transmitted by `write()`", and
whenever it changes the in-memory byte it leaves that predicate true;
`setLedDiodeState`, `toggleLedDiodeState` and `setMotorPumpState` always end
with a `write()` of the final byte. -/
theorem operations_keep_register_serialized (lc : LEDController) (d : DiodeType) (b : Bool)
    (l : List (DiodeType × Bool)) (count : Int) (t1 t2 : Nat) (p : PumpController)
    (sr : ShiftRegister) :
    ShiftRegister.KeepsSync lc.shiftRegister (lc.setLedDiodeState d b).shiftRegister
    ∧ ShiftRegister.KeepsSync lc.shiftRegister (lc.toggleLedDiodeState d).shiftRegister
    ∧ ShiftRegister.KeepsSync lc.shiftRegister (lc.tuneMultipleLedAttributes l).shiftRegister
    ∧ ShiftRegister.KeepsSync lc.shiftRegister (lc.blinkWiFiLedDiode count t1 t2).shiftRegister
    ∧ ShiftRegister.KeepsSync lc.shiftRegister
        (lc.updateWiFiLedDiodeStatus b t1 t2).shiftRegister
    ∧ ShiftRegister.KeepsSync sr (p.setMotorPumpState sr b).2
    ∧ (lc.setLedDiodeState d b).shiftRegister.inSync
    ∧ (lc.toggleLedDiodeState d).shiftRegister.inSync
    ∧ (p.setMotorPumpState sr b).2.inSync := by
  refine ⟨keepsSync_write _ _, keepsSync_write _ _, tune_keepsSync lc l,
    blink_keepsSync lc count t1 t2, ?_, keepsSync_write _ _, write_inSync _, write_inSync _,
    write_inSync _⟩
  unfold LEDController.updateWiFiLedDiodeStatus
  split
  · exact keepsSync_write _ _
  · split
    · exact blink_keepsSync lc 1 t1 t2
    · exact keepsSync_write _ _

/-- Instance of C17: a Flower-off request on the demo system with Vegetable
on, whose register is serialized before the call. -/
theorem operations_keep_register_serialized_witness :
    demoVegetableOn.ledController.shiftRegister.inSync
    ∧ (demoVegetableOn.ledController.setLedDiodeState DiodeType.Flower
        false).shiftRegister.inSync
    ∧ (demoVegetableOn.ledController.blinkWiFiLedDiode 1 10 10).shiftRegister.inSync :=
  ⟨by decide,
   (operations_keep_register_serialized demoVegetableOn.ledController DiodeType.Flower false
      [] 1 10 10 PumpController.new demoVegetableOn.ledController.shiftRegister).1.1
      (by decide),
   (operations_keep_register_serialized demoVegetableOn.ledController DiodeType.Flower false
      [] 1 10 10 PumpController.new demoVegetableOn.ledController.shiftRegister).2.2.2.1.1
      (by decide)⟩

/-! ## C18 -/

/-- C18 at a concrete click: the demo system with Flower on (power on, Flower
bit 1, Vegetable bit 0, `AppState` agreeing with both bits) receives a
Vegetable click. The handler transmits the bytes 27 and 11, and the first of
them has both the Vegetable bit (bit 3) and the Flower bit (bit 4) set. -/
theorem wire_shows_both_growth_bits :
    (demoFlowerOn.appState.isPowerOn = true
      ∧ demoFlowerOn.diodeBit DiodeType.Flower = true
      ∧ demoFlowerOn.diodeBit DiodeType.Vegetable = false
      ∧ demoFlowerOn.appState.isFlowerLedDiodeOn = true
      ∧ demoFlowerOn.appState.isVegetableLedDiodeOn = false)
    ∧ ShiftRegister.transmittedSince demoFlowerOn.ledController.shiftRegister
        (handleGrowClicks demoFlowerOn [GrowClick.vegetable]).ledController.shiftRegister
        = [27, 11]
    ∧ Nat.testBit 27 (demoFlowerOn.ledController.getLedDiodePin DiodeType.Vegetable) = true
    ∧ Nat.testBit 27 (demoFlowerOn.ledController.getLedDiodePin DiodeType.Flower) = true := by
  decide

/-! ## C19 -/

/-- C19: for every stored level, every `lastDebounceTime`, every sampled raw
level and every pair of `millis()` reads at most 80 ms apart, `update()`
leaves `lastButtonState` unchanged, so a following `isClicked()` returns the
same result and stores the same level as without the `update()` call. -/
theorem update_keeps_stored_level (b : ButtonManager) (c c' : Bool) (t1 t2 : Nat)
    (ht : subU32 t2 t1 ≤ 80) :
    (b.update c t1 t2).lastButtonState = b.lastButtonState
    ∧ ((b.update c t1 t2).isClicked c').1 = (b.isClicked c').1
    ∧ ((b.update c t1 t2).isClicked c').2.lastButtonState
        = (b.isClicked c').2.lastButtonState := by
  have hmod : subU32 t2 (t1 % 2 ^ 32) = subU32 t2 t1 := by
    simp only [subU32, Nat.mod_mod]
  have h := update_lastButtonState b c t1 t2 (by rw [hmod]; exact ht)
  exact ⟨h, by simp only [ButtonManager.isClicked, h], rfl⟩

/-- Instance of C19: a fresh button, raw level LOW, both reads at 500 ms. -/
theorem update_keeps_stored_level_witness :
    subU32 500 500 ≤ 80
    ∧ ((ButtonManager.new 32).update LOW 500 500).lastButtonState
        = (ButtonManager.new 32).lastButtonState
    ∧ (((ButtonManager.new 32).update LOW 500 500).isClicked LOW).1
        = ((ButtonManager.new 32).isClicked LOW).1
    ∧ (((ButtonManager.new 32).update LOW 500 500).isClicked LOW).2.lastButtonState
        = ((ButtonManager.new 32).isClicked LOW).2.lastButtonState :=
  ⟨by decide, update_keeps_stored_level (ButtonManager.new 32) LOW LOW 500 500 (by decide)⟩

/-! ## Shared lemmas on the loop tail -/

/-- The branch function names the branch `updateWiFiLedDiodeState` runs. -/
theorem updateWiFiLedDiodeState_eq_branch (s : System) (n : Int) (status : WlStatus)
    (t1 t2 : Nat) :
    updateWiFiLedDiodeState s n status t1 t2 =
      match updateWiFiLedDiodeStateBranch s status with
      | WiFiLedBranch.blink =>
          { s with ledController := s.ledController.blinkWiFiLedDiode n t1 t2 }
      | WiFiLedBranch.wifiOn =>
          { s with wifiManager := (s.wifiManager.isConnected status).2,
                   ledController := s.ledController.setLedDiodeState DiodeType.WiFi true }
      | WiFiLedBranch.pumpOff =>
          { s with wifiManager := (s.wifiManager.isConnected status).2,
                   ledController := s.ledController.setLedDiodeState DiodeType.Pump false } := by
  unfold updateWiFiLedDiodeState updateWiFiLedDiodeStateBranch
  cases hc : s.wifiManager.isConnecting
  · cases hd : (s.wifiManager.isConnected status).1 <;>
      simp [WiFiManager.isConnected] at hd ⊢ <;> simp [hd]
  · simp

/-- With one link status at every read, `handleConnectionResult()` returns
with one of the two flags set, and with `connecting` clear only when the link
is associated. -/
theorem handleConnectionResult_steady (w : WiFiManager) (currentTime connectNow : Nat)
    (status : WlStatus) :
    ((w.handleConnectionResult currentTime status status connectNow status).connecting = true
      ∨ (w.handleConnectionResult currentTime status status connectNow status).connected
          = true)
    ∧ ((w.handleConnectionResult currentTime status status connectNow status).connecting
          = false → status = WlStatus.WL_CONNECTED) := by
  obtain ⟨cing, ced, st, la, ai, bc, dc, mc, dl⟩ := w
  cases cing <;> cases ced <;> cases status <;>
    simp [WiFiManager.handleConnectionResult, WiFiManager.connect, WiFiManager.isConnected,
      WiFiManager.isConnecting]

/-! ## C20 -/

/-- C20: for every prior flag pair, every timestamp state and every link
status held constant through the tick, after `handleConnectionResult()` at
least one of `connecting`, `connected` is true, and the following
`updateWiFiLedDiodeState()` takes the blink branch or the WiFi-on branch,
never the branch that calls `setLedDiodeState(DiodeType::Pump, false)`. -/
theorem loop_tail_never_forces_pump_off (s : System) (wifiBlinkCount : Int)
    (currentTime connectNow t1 t2 : Nat) (status : WlStatus) :
    ((s.wifiManager.handleConnectionResult currentTime status status connectNow
          status).connecting = true
      ∨ (s.wifiManager.handleConnectionResult currentTime status status connectNow
          status).connected = true)
    ∧ updateWiFiLedDiodeStateBranch
        { s with wifiManager := (s.wifiManager.handleConnectionResult currentTime status
                   status connectNow status) } status ≠ WiFiLedBranch.pumpOff
    ∧ (s.appState.isPowerOn = true →
        loopTail s wifiBlinkCount currentTime status status connectNow status status t1 t2
          = { s with
              wifiManager := (s.wifiManager.handleConnectionResult currentTime status status
                connectNow status),
              ledController := s.ledController.blinkWiFiLedDiode wifiBlinkCount t1 t2 }
        ∨ loopTail s wifiBlinkCount currentTime status status connectNow status status t1 t2
          = { s with
              wifiManager := ((s.wifiManager.handleConnectionResult currentTime status status
                connectNow status).isConnected status).2,
              ledController := s.ledController.setLedDiodeState DiodeType.WiFi true }) := by
  obtain ⟨hflags, hassoc⟩ :=
    handleConnectionResult_steady s.wifiManager currentTime connectNow status
  have hbranch : updateWiFiLedDiodeStateBranch
      { s with wifiManager := (s.wifiManager.handleConnectionResult currentTime status
                 status connectNow status) } status ≠ WiFiLedBranch.pumpOff := by
    unfold updateWiFiLedDiodeStateBranch
    simp only [WiFiManager.isConnecting, WiFiManager.isConnected]
    cases hc : (s.wifiManager.handleConnectionResult currentTime status status connectNow
        status).connecting
    · simp [hassoc hc]
    · simp
  refine ⟨hflags, hbranch, fun hpow => ?_⟩
  simp only [AppState.isPowerOn] at hpow
  simp only [loopTail, AppState.isPowerOn, hpow, if_true]
  rw [updateWiFiLedDiodeState_eq_branch]
  cases hb : updateWiFiLedDiodeStateBranch
      { s with wifiManager := (s.wifiManager.handleConnectionResult currentTime status
                 status connectNow status) } status with
  | blink => exact Or.inl rfl
  | wifiOn => exact Or.inr rfl
  | pumpOff => exact absurd hb hbranch


/-- Instance of C20: one tick of the demo system after power-on with the link
reporting `WL_DISCONNECTED` at every read. -/
theorem loop_tail_never_forces_pump_off_witness :
    demoPoweredOn.appState.isPowerOn = true
    ∧ (loopTail demoPoweredOn 3 5000 WlStatus.WL_DISCONNECTED WlStatus.WL_DISCONNECTED 5000
          WlStatus.WL_DISCONNECTED WlStatus.WL_DISCONNECTED 5250 5250
        = { demoPoweredOn with
            wifiManager := (demoPoweredOn.wifiManager.handleConnectionResult 5000
              WlStatus.WL_DISCONNECTED WlStatus.WL_DISCONNECTED 5000
              WlStatus.WL_DISCONNECTED),
            ledController := demoPoweredOn.ledController.blinkWiFiLedDiode 3 5250 5250 }
      ∨ loopTail demoPoweredOn 3 5000 WlStatus.WL_DISCONNECTED WlStatus.WL_DISCONNECTED 5000
          WlStatus.WL_DISCONNECTED WlStatus.WL_DISCONNECTED 5250 5250
        = { demoPoweredOn with
            wifiManager := ((demoPoweredOn.wifiManager.handleConnectionResult 5000
              WlStatus.WL_DISCONNECTED WlStatus.WL_DISCONNECTED 5000
              WlStatus.WL_DISCONNECTED).isConnected WlStatus.WL_DISCONNECTED).2,
            ledController :=
              demoPoweredOn.ledController.setLedDiodeState DiodeType.WiFi true }) :=
  ⟨by decide,
   (loop_tail_never_forces_pump_off demoPoweredOn 3 5000 5000 5250 5250
      WlStatus.WL_DISCONNECTED).2.2 (by decide)⟩

end Hydroponics
